import Mathlib

/-!
Verification development for the HIVE multi-agent orchestration engine
(`src/src-tauri/src`).  The Rust core is shallowly embedded: each Rust
struct/enum of `common_types` becomes a Lean structure/inductive, hash maps
become association lists kept in iteration order, `Uuid::new_v4()` and
`Utc::now()` are modelled by a deterministic counter / clock threaded through
an explicit orchestrator state, and fallible operations return `Except`.
Machine integers are modelled as `Nat`/`Int` with explicit wrapping or range
checks where the Rust code converts between widths.
-/

namespace HIVE

/-- Rust `TaskStatus` from `common_types/task_defs.rs`. -/
inductive TaskStatus
  | pending
  | inProgress
  | completed
  | failed
  | pendingDependencies
  | readyToExecute
  | executing
  | blockedByError
  | awaitingValidation
  deriving DecidableEq, Repr

/-- Rust `Display for TaskStatus` (`task_defs.rs` lines 69-83). -/
def taskStatusToString : TaskStatus → String
  | .pending => "Pending"
  | .inProgress => "In Progress"
  | .completed => "Completed"
  | .failed => "Failed"
  | .pendingDependencies => "Pending Dependencies"
  | .readyToExecute => "Ready To Execute"
  | .executing => "Executing"
  | .blockedByError => "Blocked By Error"
  | .awaitingValidation => "Awaiting Validation"

/-- Rust `FromStr for TaskStatus` (`task_defs.rs` lines 85-102); `none` models the
`Err(anyhow!(..))` arm. -/
def taskStatusFromStr : String → Option TaskStatus
  | "Pending" => some .pending
  | "In Progress" => some .inProgress
  | "Completed" => some .completed
  | "Failed" => some .failed
  | "Pending Dependencies" => some .pendingDependencies
  | "Ready To Execute" => some .readyToExecute
  | "Executing" => some .executing
  | "Blocked By Error" => some .blockedByError
  | "Awaiting Validation" => some .awaitingValidation
  | _ => none

/-- Rust `AgentRole` from `common_types/agent_defs.rs`. -/
inductive AgentRole
  | planner
  | researcher
  | writer
  | coder
  | validator
  | simpleWorker
  deriving DecidableEq, Repr

/-- Rust `Display for AgentRole` (`agent_defs.rs` lines 16-27). -/
def agentRoleToString : AgentRole → String
  | .planner => "Planner"
  | .researcher => "Researcher"
  | .writer => "Writer"
  | .coder => "Coder"
  | .validator => "Validator"
  | .simpleWorker => "Simple Worker"

/-- Rust `FromStr for AgentRole` (`agent_defs.rs` lines 29-43). -/
def agentRoleFromStr : String → Option AgentRole
  | "Planner" => some .planner
  | "Researcher" => some .researcher
  | "Writer" => some .writer
  | "Coder" => some .coder
  | "Validator" => some .validator
  | "Simple Worker" => some .simpleWorker
  | _ => none

/-- Rust `AgentStatus` from `common_types/agent_defs.rs`. -/
inductive AgentStatus
  | idle
  | ready
  | busy
  | waitingForInformation
  | waitingForDelegatedTask
  | failed
  | taskFailedRetryable
  | taskFailedTerminal
  deriving DecidableEq, Repr

/-- Rust `TaskType` from `common_types/task_defs.rs`. -/
inductive TaskType
  | generic
  | generateCode
  | research
  | writeContent
  | validateContent
  | decomposeTask
  deriving DecidableEq, Repr

/-- Rust `TaskEdgeType` from `common_types/task_graph_defs.rs`. -/
inductive TaskEdgeType
  | dependency
  deriving DecidableEq, Repr

/-- Rust `BackoffStrategy` from `common_types/task_graph_defs.rs`. -/
inductive BackoffStrategy
  | fixed
  | exponential
  deriving DecidableEq, Repr

/-- Rust `TaskGraphStatus` from `common_types/task_graph_defs.rs`. -/
inductive TaskGraphStatus
  | pending
  | inProgress
  | completed
  | failed
  | paused
  deriving DecidableEq, Repr

/-- Rust `SprintStatus` from `common_types/sprint_defs.rs`. -/
inductive SprintStatus
  | planned
  | active
  | completed
  | aborted
  deriving DecidableEq, Repr

/-- Rust `serde_json::Value`, restricted to integer numbers (the orchestrator core
only ever builds `Value::String`). -/
inductive JValue
  | null
  | bool (b : Bool)
  | num (n : Int)
  | str (s : String)
  | arr (xs : List JValue)
  | obj (kvs : List (String × JValue))

/-- Rust `Deliverable` from `common_types/sprint_defs.rs`: two payload variants. -/
inductive Deliverable
  | researchReport (content : String) (sources : List String)
  | codePatch (content : String)
  deriving DecidableEq, Repr

/-- The canonical content field extracted per `Deliverable` variant, as matched
by the scheduler (`task_scheduler.rs` lines 110-115). -/
def Deliverable.contentOf : Deliverable → String
  | .researchReport c _ => c
  | .codePatch c => c

/-- Rust `InputMapping` from `common_types/task_defs.rs`.  `Uuid` is modelled as its
string form throughout. -/
structure InputMapping where
  source_task_id : String
  deliverable_key : String
  target_input_name : String
  deriving DecidableEq, Repr

/-- Rust `TaskSpecification` from `common_types/task_defs.rs`.  `priority` is
`Option<u8>` in Rust: a `Nat` below 256. -/
structure TaskSpecification where
  name : String
  description : String
  required_role : AgentRole
  input_mappings : List InputMapping
  priority : Option Nat
  required_agent_role : Option AgentRole
  context : Option String
  task_type : TaskType
  deriving DecidableEq, Repr

/-- Rust `TaskRetryPolicy` from `common_types/task_graph_defs.rs`
(`max_retries : u8`, `retry_delay_ms : u64`). -/
structure TaskRetryPolicy where
  max_retries : Nat
  retry_delay_ms : Nat
  backoff_strategy : Option BackoffStrategy
  deriving DecidableEq, Repr

/-- Rust `TaskInput` from `common_types/task_graph_defs.rs`. -/
structure TaskInput where
  id : String
  description : String
  data : JValue
  source_deliverable_ids : List String

/-- Rust `TaskNode` from `common_types/task_graph_defs.rs`.  `retry_count : u32`,
`priority : u8` and the durations (`u64`) are `Nat`s; timestamps (`DateTime<Utc>`)
are `Nat` instants. -/
structure TaskNode where
  id : String
  name : String
  description : String
  task_spec : TaskSpecification
  status : TaskStatus
  agent_role_type : Option AgentRole
  mcp_id : Option String
  inputs : List TaskInput
  outputs : List Deliverable
  retry_count : Nat
  retry_policy : Option TaskRetryPolicy
  priority : Nat
  estimated_duration_ms : Option Nat
  actual_duration_ms : Option Nat
  created_at : Nat
  updated_at : Nat
  assigned_agent_id : Option String
  error_message : Option String
  sprint_id : Option String

/-- Rust `TaskEdge` from `common_types/task_graph_defs.rs`; `data_mapping` keeps the
`HashMap<String, String>` as an association list. -/
structure TaskEdge where
  id : String
  from_node_id : String
  to_node_id : String
  condition : Option String
  data_mapping : Option (List (String × String))
  edge_type : TaskEdgeType
  deriving DecidableEq, Repr

/-- Rust `TaskGraph` from `common_types/task_graph_defs.rs`; the `HashMap<String,
TaskNode>` is an association list in iteration order. -/
structure TaskGraph where
  id : String
  name : String
  description : String
  nodes : List (String × TaskNode)
  edges : List TaskEdge
  root_task_ids : List String
  status : TaskGraphStatus
  overall_goal : String
  created_at : Nat
  updated_at : Nat

/-- Rust `Sprint` from `common_types/sprint_defs.rs`. -/
structure Sprint where
  id : String
  name : Option String
  goal : String
  status : SprintStatus
  start_date : Option Nat
  end_date : Option Nat
  planned_tasks : List String
  completed_tasks : List String
  review_notes : Option String

/-- Rust `SubTaskDefinition` from `common_types/task_defs.rs`. -/
structure SubTaskDefinition where
  title : String
  description : String
  task_spec : TaskSpecification
  temp_id : String

/-- Rust `SubTaskEdgeDefinition` from `common_types/task_defs.rs`. -/
structure SubTaskEdgeDefinition where
  from_subtask_temp_id : String
  to_subtask_temp_id : String
  edge_type : TaskEdgeType

/-- Rust `SubTaskDelegationRequest` from `common_types/message_defs.rs`. -/
structure SubTaskDelegationRequest where
  parent_task_id : String
  delegating_agent_id : String
  sub_task_spec : TaskSpecification

/-- Rust `AgentResponse` from `common_types/message_defs.rs`. -/
inductive AgentResponse
  | taskCompleted (task_id agent_id : String) (deliverable : Deliverable)
  | taskFailed (task_id agent_id error : String)

/-- The `MessageContent` variants of `common_types/message_defs.rs` that the
embedded components consume or produce. -/
inductive MessageContent
  | taskAssignment (task : TaskNode)
  | agentResponse (r : AgentResponse)
  | subTasksGenerated (original_task_id : String) (sub_tasks : List SubTaskDefinition)
      (sub_task_edges : List SubTaskEdgeDefinition)
  | delegateSubTask (req : SubTaskDelegationRequest)
  | delegatedTaskCompletedNotification (delegating_agent_id completed_sub_task_id : String)
  | other

/-- Rust `Message` from `common_types/message_defs.rs`. -/
structure Message where
  id : String
  sender_id : String
  receiver_id : Option String
  content : MessageContent

/-! ## Association-list helpers (Rust `HashMap` in iteration order) -/

/-- Rust `HashMap::get`: first value stored under the key. -/
def alookup {α : Type} : List (String × α) → String → Option α
  | [], _ => none
  | (k, v) :: rest, key => if k = key then some v else alookup rest key

/-- Rust `HashMap::contains_key`. -/
def acontains {α : Type} (l : List (String × α)) (key : String) : Bool :=
  (alookup l key).isSome

/-- Rust `HashMap::insert` (upsert by key, like `INSERT OR REPLACE`). -/
def aupsert {α : Type} : List (String × α) → String → α → List (String × α)
  | [], key, v => [(key, v)]
  | (k, w) :: rest, key, v =>
      if k = key then (k, v) :: rest else (k, w) :: aupsert rest key v

/-- Rust `HashMap::remove` (drops every entry stored under the key). -/
def aremove {α : Type} (l : List (String × α)) (key : String) : List (String × α) :=
  l.filter (fun p => p.1 ≠ key)

/-- In-place mutation through `get_mut`: apply `f` to the value at `key`. -/
def aupdate {α : Type} : List (String × α) → String → (α → α) → List (String × α)
  | [], _, _ => []
  | (k, v) :: rest, key, f =>
      if k = key then (k, f v) :: aupdate rest key f
      else (k, v) :: aupdate rest key f

/-! ## Persistence store (`persistence/mod.rs`)

The SQLite row for a task keeps each column at the fidelity the Rust code
manipulates it:
* `status` / `agent_role_type` columns hold the `Display` strings and are
  re-parsed with `FromStr` on load;
* `retry_count` and `priority` are stored as SQL integers (`u32`/`u8`
  parameters are widened exactly to `i64` by rusqlite) and read back through
  rusqlite's *checked* `i32` column getter followed by Rust `as` casts;
* the durations are stored via `d as i64` (wrapping) and read back with
  `as u64` (wrapping);
* the JSON blobs (`task_spec`, `inputs`, `outputs`, `retry_policy`) go
  through `serde_json`, and the timestamps through `to_rfc3339` /
  `parse_from_rfc3339`; both library codecs are exact inverses on these
  types, so the model keeps the typed value in the column (with
  `retry_policy = None` keeping serde's `"null"` special case explicit in
  the decoder, mirroring `load_task`'s `from_str(..).ok()`). -/

/-- Two's-complement `u64 → i64` cast (`d as i64` in `save_task`). -/
def wrapI64 (d : Nat) : Int :=
  if d < 2 ^ 63 then (d : Int) else (d : Int) - 2 ^ 64

/-- Rust `as u64` on an `i64` value (wrapping). -/
def castU64 (i : Int) : Nat := (i % 2 ^ 64).toNat

/-- rusqlite's checked `i32` column getter: values outside the `i32` range
make `row.get::<i32>` return `Err(FromSqlError::OutOfRange)`. -/
def getI32 (i : Int) : Except Unit Int :=
  if -(2 ^ 31) ≤ i ∧ i < 2 ^ 31 then .ok i else .error ()

/-- Rust `as u32` on an `i32` value (two's-complement reinterpretation). -/
def castU32 (i : Int) : Nat := (i % 2 ^ 32).toNat

/-- Rust `as u8` on an `i32` value. -/
def castU8 (i : Int) : Nat := (i % 2 ^ 8).toNat

/-- One row of the `tasks` table, column by column (`create_tables` /
`save_task` in `persistence/mod.rs`). -/
structure TaskRow where
  id : String
  name : String
  description : String
  task_spec : TaskSpecification
  status : String
  agent_role_type : Option String
  mcp_id : Option String
  inputs : List TaskInput
  outputs : List Deliverable
  retry_count : Int
  retry_policy : Option TaskRetryPolicy
  priority : Int
  estimated_duration_ms : Option Int
  actual_duration_ms : Option Int
  created_at : Nat
  updated_at : Nat
  assigned_agent_id : Option String
  error_message : Option String
  sprint_id : Option String

/-- The SQLite database: three tables keyed by id (`INSERT OR REPLACE`
upserts), plus a flag modelling whether write statements succeed. -/
structure DbState where
  tasks : List (String × TaskRow)
  edges : List (String × TaskEdge)
  sprints : List (String × Sprint)
  writeOk : Bool

/-- The row `save_task` builds from a node (`persistence/mod.rs` lines 80-112). -/
def taskRowOf (n : TaskNode) : TaskRow where
  id := n.id
  name := n.name
  description := n.description
  task_spec := n.task_spec
  status := taskStatusToString n.status
  agent_role_type := n.agent_role_type.map agentRoleToString
  mcp_id := n.mcp_id
  inputs := n.inputs
  outputs := n.outputs
  retry_count := (n.retry_count : Int)
  retry_policy := n.retry_policy
  priority := (n.priority : Int)
  estimated_duration_ms := n.estimated_duration_ms.map wrapI64
  actual_duration_ms := n.actual_duration_ms.map wrapI64
  created_at := n.created_at
  updated_at := n.updated_at
  assigned_agent_id := n.assigned_agent_id
  error_message := n.error_message
  sprint_id := n.sprint_id

/-- Rust `save_task` (`persistence/mod.rs` lines 80-112): upsert-by-id, or a
`rusqlite` error when the write fails. -/
def save_task (db : DbState) (n : TaskNode) : Except Unit DbState :=
  if db.writeOk then .ok { db with tasks := aupsert db.tasks n.id (taskRowOf n) }
  else .error ()

/-- Rust `status_str.parse::<TaskStatus>().map_err(..)?` inside `load_task`:
`FromStr` failure becomes a `rusqlite::Error`. -/
def parseStatusCol (s : String) : Except Unit TaskStatus :=
  match taskStatusFromStr s with
  | some status => .ok status
  | none => .error ()

/-- Rust `agent_role_type_str.map(|role| role.parse().map_err(..)).transpose()?`
inside `load_task`. -/
def parseRoleCol (s : Option String) : Except Unit (Option AgentRole) :=
  match s with
  | none => .ok none
  | some r =>
      match agentRoleFromStr r with
      | some role => .ok (some role)
      | none => .error ()

/-- The `TaskNode` literal `load_task` builds from the decoded columns
(`persistence/mod.rs` lines 151-170): `retry_count as u32`, `priority as u8`,
durations cast `as u64` per element. -/
def nodeOfRow (row : TaskRow) (status : TaskStatus)
    (agent_role_type : Option AgentRole) (retry_count priority : Int) :
    TaskNode where
  id := row.id
  name := row.name
  description := row.description
  task_spec := row.task_spec
  status := status
  agent_role_type := agent_role_type
  mcp_id := row.mcp_id
  inputs := row.inputs
  outputs := row.outputs
  retry_count := castU32 retry_count
  retry_policy := row.retry_policy
  priority := castU8 priority
  estimated_duration_ms := row.estimated_duration_ms.map castU64
  actual_duration_ms := row.actual_duration_ms.map castU64
  created_at := row.created_at
  updated_at := row.updated_at
  assigned_agent_id := row.assigned_agent_id
  error_message := row.error_message
  sprint_id := row.sprint_id

/-- Rust `load_task` (`persistence/mod.rs` lines 114-174): decode the row found
under `task_id`, propagating column-getter and parse errors with `?` in source
order (the checked `i32` getters for columns 9 and 11 run before the status and
role parses).  `Uuid::parse_str(..).unwrap_or_default()` on ids saved by
`save_task` is the identity, as is `parse_from_rfc3339` on `to_rfc3339`
output. -/
def load_task (db : DbState) (task_id : String) : Except Unit (Option TaskNode) :=
  match alookup db.tasks task_id with
  | none => .ok none
  | some row =>
      (getI32 row.retry_count).bind fun retry_count =>
      (getI32 row.priority).bind fun priority =>
      (parseStatusCol row.status).bind fun status =>
      (parseRoleCol row.agent_role_type).bind fun agent_role_type =>
      .ok (some (nodeOfRow row status agent_role_type retry_count priority))

/-- Rust `save_task_dependency` (`persistence/mod.rs` lines 246-263). -/
def save_task_dependency (db : DbState) (e : TaskEdge) : Except Unit DbState :=
  if db.writeOk then .ok { db with edges := aupsert db.edges e.id e }
  else .error ()

/-- Rust `save_sprint` (`persistence/mod.rs` lines 294-314). -/
def save_sprint (db : DbState) (sp : Sprint) : Except Unit DbState :=
  if db.writeOk then .ok { db with sprints := aupsert db.sprints sp.id sp }
  else .error ()

/-! ## Task graph manager (`core_orchestrator/components/task_graph_manager.rs`)

The manager's three locked maps plus the database connection become one
record.  `Uuid::new_v4()` is determinised by a `fresh` counter and
`Utc::now()` by a `clock` instant; neither choice affects any property
below. -/

/-- Rust `TaskGraphManager` state: `active_task_graphs`, `delegated_task_mapping`,
`sprints`, the DB handle, and the id/clock supplies. -/
structure OrchState where
  graphs : List (String × TaskGraph)
  delegated : List (String × String)
  sprints : List (String × Sprint)
  db : DbState
  fresh : Nat
  clock : Nat

/-- Rust `Uuid::new_v4()`, determinised. -/
def genId (s : OrchState) : String × OrchState :=
  ("uuid-" ++ toString s.fresh, { s with fresh := s.fresh + 1 })

/-- Rust `create_task_graph` (`task_graph_manager.rs` lines 93-117): inserts the
fresh graph in memory; the source persists nothing for the graph itself. -/
def create_task_graph (s : OrchState) (name description overall_goal : String) :
    String × OrchState :=
  let (id, s) := genId s
  let g : TaskGraph :=
    { id := id, name := name, description := description, nodes := [],
      edges := [], root_task_ids := [], status := .pending,
      overall_goal := overall_goal, created_at := s.clock, updated_at := s.clock }
  (id, { s with graphs := aupsert s.graphs id g })

/-- The fresh `TaskNode` built by `add_task_node_to_graph`
(`task_graph_manager.rs` lines 178-198). -/
def newTaskNode (node_id : String) (task_spec : TaskSpecification)
    (sprint_id : Option String) (estimated_duration_ms : Option Nat)
    (now : Nat) : TaskNode where
  id := node_id
  name := task_spec.name
  description := task_spec.description
  task_spec := task_spec
  status := .pendingDependencies
  agent_role_type := task_spec.required_agent_role
  mcp_id := none
  inputs := []
  outputs := []
  retry_count := 0
  retry_policy := none
  priority := task_spec.priority.getD 0
  estimated_duration_ms := estimated_duration_ms
  actual_duration_ms := none
  created_at := now
  updated_at := now
  assigned_agent_id := none
  error_message := none
  sprint_id := sprint_id

/-- Rust `add_task_node_to_graph` (`task_graph_manager.rs` lines 168-217): builds
the node, persists it first (`save_task`), then inserts it in memory.  Errors
always carry the state reached so far (the Rust `?` returns after any
partial effects already happened). -/
def add_task_node_to_graph (s : OrchState) (graph_id : String)
    (task_spec : TaskSpecification) (sprint_id : Option String)
    (estimated_duration_ms : Option Nat) :
    Except Unit String × OrchState :=
  let (node_id, s) := genId s
  let node := newTaskNode node_id task_spec sprint_id estimated_duration_ms s.clock
  match save_task s.db node with
  | .error _ => (.error (), s)
  | .ok db =>
      let s := { s with db := db }
      if acontains s.graphs graph_id then
        (.ok node_id,
          { s with graphs := aupdate s.graphs graph_id (fun g =>
              { g with nodes := aupsert g.nodes node.id node,
                       updated_at := s.clock }) })
      else (.error (), s)

/-- Rust `add_task_edge_to_graph` (`task_graph_manager.rs` lines 220-261): rejects a
missing graph or endpoint, persists the edge first, then pushes it. -/
def add_task_edge_to_graph (s : OrchState) (graph_id : String)
    (from_node_id to_node_id : String) (condition : Option String)
    (data_mapping : Option (List (String × String))) :
    Except Unit String × OrchState :=
  match alookup s.graphs graph_id with
  | none => (.error (), s)
  | some g =>
      if acontains g.nodes from_node_id then
        if acontains g.nodes to_node_id then
          let (edge_id, s) := genId s
          let e : TaskEdge :=
            { id := edge_id, from_node_id := from_node_id,
              to_node_id := to_node_id, condition := condition,
              data_mapping := data_mapping, edge_type := .dependency }
          match save_task_dependency s.db e with
          | .error _ => (.error (), s)
          | .ok db =>
              (.ok edge_id,
                { s with db := db,
                         graphs := aupdate s.graphs graph_id (fun g =>
                           { g with edges := g.edges ++ [e],
                                    updated_at := s.clock }) })
        else (.error (), s)
      else (.error (), s)

/-- Rust `remove_task_node` (`task_graph_manager.rs` lines 130-137): removes the
node from the in-memory map only; missing graph is a silent no-op; **no
persistence call**. -/
def remove_task_node (s : OrchState) (graph_id node_id : String) : OrchState :=
  if acontains s.graphs graph_id then
    { s with graphs := aupdate s.graphs graph_id (fun g =>
        { g with nodes := aremove g.nodes node_id, updated_at := s.clock }) }
  else s

/-- Rust `remove_task_edge` (`task_graph_manager.rs` lines 139-146): in-memory
`retain` only; **no persistence call**. -/
def remove_task_edge (s : OrchState) (graph_id edge_id : String) : OrchState :=
  if acontains s.graphs graph_id then
    { s with graphs := aupdate s.graphs graph_id (fun g =>
        { g with edges := g.edges.filter (fun e => e.id ≠ edge_id),
                 updated_at := s.clock }) }
  else s

/-- Rust `find_graph_id_for_task` (`task_graph_manager.rs` lines 264-272): linear
scan in map iteration order. -/
def find_graph_id_for_task (s : OrchState) (task_id : String) : Option String :=
  (s.graphs.find? (fun p => acontains p.2.nodes task_id)).map (·.1)

/-- Rust `remove_delegated_task_mapping` (`task_graph_manager.rs` lines 152-155):
`HashMap::remove`, returning the removed value. -/
def remove_delegated_task_mapping (s : OrchState) (task_id : String) :
    Option String × OrchState :=
  (alookup s.delegated task_id, { s with delegated := aremove s.delegated task_id })

/-- Rust `create_sprint` (`task_graph_manager.rs` lines 275-303): builds a Planned
sprint, persists it first, then inserts it in memory. -/
def create_sprint (s : OrchState) (name : Option String) (goal : String) :
    Except Unit String × OrchState :=
  let (id, s) := genId s
  let sp : Sprint :=
    { id := id, name := name, goal := goal, status := .planned,
      start_date := none, end_date := none, planned_tasks := [],
      completed_tasks := [], review_notes := none }
  match save_sprint s.db sp with
  | .error _ => (.error (), s)
  | .ok db => (.ok id, { s with db := db, sprints := aupsert s.sprints id sp })

/-- Rust `start_sprint` (`task_graph_manager.rs` lines 322-351): requires status
Planned, persists the Active sprint first, then updates memory. -/
def start_sprint (s : OrchState) (sprint_id : String) :
    Except Unit Unit × OrchState :=
  match alookup s.sprints sprint_id with
  | none => (.error (), s)
  | some sp =>
      if sp.status = .planned then
        let sp' := { sp with status := .active, start_date := some s.clock }
        match save_sprint s.db sp' with
        | .error _ => (.error (), s)
        | .ok db =>
            (.ok (), { s with db := db, sprints := aupsert s.sprints sprint_id sp' })
      else (.error (), s)

/-- Rust `complete_sprint` (`task_graph_manager.rs` lines 354-383): requires status
Active, persists the Completed sprint first, then updates memory. -/
def complete_sprint (s : OrchState) (sprint_id : String) :
    Except Unit Unit × OrchState :=
  match alookup s.sprints sprint_id with
  | none => (.error (), s)
  | some sp =>
      if sp.status = .active then
        let sp' := { sp with status := .completed, end_date := some s.clock }
        match save_sprint s.db sp' with
        | .error _ => (.error (), s)
        | .ok db =>
            (.ok (), { s with db := db, sprints := aupsert s.sprints sprint_id sp' })
      else (.error (), s)

/-! ## Worker registry (`agent_manager/mod.rs`) -/

/-- The registry-visible face of an agent: its id, configured role, and
current status. -/
structure AgentInfo where
  id : String
  role : AgentRole
  status : AgentStatus
  deriving DecidableEq, Repr

/-- Rust `find_available_agent` (`agent_manager/mod.rs` lines 166-195): first agent
in map iteration order whose status is Idle or Ready and whose role matches
the required role when one is given. -/
def find_available_agent (agents : List AgentInfo) (required_role : Option AgentRole) :
    Option AgentInfo :=
  agents.find? (fun a =>
    if a.status = AgentStatus.idle ∨ a.status = AgentStatus.ready then
      match required_role with
      | some r => decide (a.role = r)
      | none => true
    else false)

/-- Rust `get_agent` (`agent_manager/mod.rs` lines 158-160): the source returns
`None` unconditionally ("This method is no longer functional as agents are
not stored") even though `spawn_agent` does insert every agent into the map
(line 133). -/
def get_agent (_agents : List AgentInfo) (_agent_id : String) : Option AgentInfo :=
  none

/-! ## Scheduler (`core_orchestrator/components/task_scheduler.rs`) -/

/-- The snapshot taken at the top of `run_scheduling_cycle` (lines 52-78):
for each graph in map iteration order, clone every node whose status is
`ReadyToExecute`, paired with its graph id. -/
def collectReadyTasks (graphs : List (String × TaskGraph)) :
    List (String × TaskNode) :=
  graphs.flatMap (fun p =>
    (p.2.nodes.filter (fun q => decide (q.2.status = TaskStatus.readyToExecute))).map
      (fun q => (p.1, q.2)))

/-- Rendering of one `InputMapping` for the `{:?}` part of the
input-mapping-failure error message. -/
def inputMappingDebug (m : InputMapping) : String :=
  "InputMapping \x7b source_task_id: " ++ m.source_task_id ++
    ", deliverable_key: " ++ m.deliverable_key ++
    ", target_input_name: " ++ m.target_input_name ++ " \x7d"

/-- Rendering of a `Vec<InputMapping>` for the `{:?}` part of the
input-mapping-failure error message. -/
def inputMappingsDebug (ms : List InputMapping) : String :=
  "[" ++ String.intercalate ", " (ms.map inputMappingDebug) ++ "]"

/-- The input-resolution loop of `run_scheduling_cycle` (lines 89-149): for
each mapping locate the source node in the *current* graph state and find the
deliverable whose canonical content equals `deliverable_key`; `none` models
the `input_mapping_failed = true; break` arms.  The fresh-id supply is
threaded because each resolved `TaskInput` gets a `Uuid::new_v4()` id. -/
def resolveInputs (graph_id : String) :
    OrchState → List InputMapping → List TaskInput →
    Option (List TaskInput) × OrchState
  | s, [], acc => (some acc, s)
  | s, m :: rest, acc =>
      match (alookup s.graphs graph_id).bind
          (fun g => alookup g.nodes m.source_task_id) with
      | none => (none, s)
      | some source_node =>
          match source_node.outputs.find?
              (fun d => decide (d.contentOf = m.deliverable_key)) with
          | none => (none, s)
          | some d =>
              let (input_id, s) := genId s
              let type_name := match d with
                | .researchReport _ _ => "ResearchReport"
                | .codePatch _ => "CodePatch"
              let ti : TaskInput :=
                { id := input_id,
                  description :=
                    "Input from " ++ type_name ++ ": " ++ d.contentOf.take 100,
                  data := .str d.contentOf,
                  source_deliverable_ids := [source_node.id] }
              resolveInputs graph_id s rest (acc ++ [ti])

/-- One iteration of the candidate loop of `run_scheduling_cycle`
(lines 81-232).  The accumulator carries the orchestrator state, the
`TaskAssignment` messages published so far, and the trace of candidate task
ids in the order the loop considered them.  `aupdate` on a missing key is the
identity, matching the log-only arms for missing graphs/nodes. -/
def schedStep (agents : List AgentInfo) :
    OrchState × List Message × List String → String × TaskNode →
    OrchState × List Message × List String
  | (s, msgs, trace), (graph_id, node) =>
      let trace := trace ++ [node.id]
      let (resolved, s) := resolveInputs graph_id s node.task_spec.input_mappings []
      match resolved with
      | none =>
          -- lines 151-175: mark the node Failed with the binding-failure error
          let s := { s with graphs := aupdate s.graphs graph_id (fun g =>
            { g with nodes := aupdate g.nodes node.id (fun n =>
                { n with status := .failed,
                         error_message := some
                           ("Input mapping failed. Could not resolve inputs based on mappings: "
                             ++ inputMappingsDebug node.task_spec.input_mappings) }) }) }
          (s, msgs, trace)
      | some task_inputs =>
          -- lines 177-231: find an available agent, assign, publish
          match find_available_agent agents node.task_spec.required_agent_role with
          | none => (s, msgs, trace)
          | some agent =>
              match (alookup s.graphs graph_id).bind (fun g => alookup g.nodes node.id) with
              | none => (s, msgs, trace)
              | some cur =>
                  let cur' := { cur with inputs := task_inputs,
                                         status := .executing,
                                         assigned_agent_id := some agent.id }
                  let s := { s with graphs := aupdate s.graphs graph_id (fun g =>
                    { g with nodes := aupdate g.nodes node.id (fun _ => cur') }) }
                  let (msg_id, s) := genId s
                  let msg : Message :=
                    { id := msg_id, sender_id := "orchestrator",
                      receiver_id := some agent.id,
                      content := .taskAssignment cur' }
                  (s, msgs ++ [msg], trace)

/-- Rust `run_scheduling_cycle` (`task_scheduler.rs` lines 37-236): snapshot the
ready nodes, then process each candidate in snapshot order.  Returns the new
state, the published `TaskAssignment` messages, and the considered-candidate
trace. -/
def run_scheduling_cycle (agents : List AgentInfo) (s : OrchState) :
    OrchState × List Message × List String :=
  (collectReadyTasks s.graphs).foldl (schedStep agents) (s, [], [])

/-! ## Result processor (`core_orchestrator/components/task_result_processor.rs`) -/

/-- Rust `handle_task_completed_success` (lines 109-168): set the node to
Completed with the reported deliverables, clear the error, reset the retry
count; take the delegation mapping; when it was present, look the delegating
agent up via `AgentManager::get_agent` and, if it is
`WaitingForDelegatedTask`, publish a directed
`DelegatedTaskCompletedNotification`. -/
def handle_task_completed_success (agents : List AgentInfo) (s : OrchState)
    (task_id : String) (outputs : List Deliverable) (now : Nat)
    (graph_id : String) : Except Unit (OrchState × List Message) :=
  match alookup s.graphs graph_id with
  | none => .error ()
  | some g =>
      match alookup g.nodes task_id with
      | none => .error ()
      | some _ =>
          let s := { s with graphs := aupdate s.graphs graph_id (fun g =>
            { g with nodes := aupdate g.nodes task_id (fun n =>
                { n with status := .completed, outputs := outputs,
                         updated_at := now, error_message := none,
                         retry_count := 0 }),
                     updated_at := now }) }
          let (taken, s) := remove_delegated_task_mapping s task_id
          match taken with
          | none => .ok (s, [])
          | some delegating_agent_id =>
              match get_agent agents delegating_agent_id with
              | none => .ok (s, [])   -- "Delegating agent {} not found."
              | some agent =>
                  if agent.status = AgentStatus.waitingForDelegatedTask then
                    let (msg_id, s) := genId s
                    .ok (s, [{ id := msg_id, sender_id := "orchestrator",
                               receiver_id := some delegating_agent_id,
                               content := .delegatedTaskCompletedNotification
                                 delegating_agent_id task_id }])
                  else .ok (s, [])

/-- The effective maximum retries of a node
(`node.retry_policy.as_ref().map_or(0, |policy| policy.max_retries as u32)`,
`task_result_processor.rs` line 187). -/
def maxRetriesOf (n : TaskNode) : Nat :=
  (n.retry_policy.map (·.max_retries)).getD 0

/-- Rust `handle_task_failure` (lines 171-207): store the error; if the failure is
fatal or `retry_count >= max_retries`, mark the node Failed, otherwise bump
`retry_count` (a `u32` increment, hence the wrap) and set it back to
`ReadyToExecute`.  The call site (line 75-76) always passes
`is_fatal = false`. -/
def handle_task_failure (s : OrchState) (task_id error_str : String)
    (is_fatal : Bool) (now : Nat) (graph_id : String) : Except Unit OrchState :=
  match alookup s.graphs graph_id with
  | none => .error ()
  | some g =>
      match alookup g.nodes task_id with
      | none => .error ()
      | some node =>
          let node' :=
            if is_fatal ∨ node.retry_count ≥ maxRetriesOf node then
              { node with updated_at := now, error_message := some error_str,
                          status := .failed }
            else
              { node with updated_at := now, error_message := some error_str,
                          retry_count := (node.retry_count + 1) % 2 ^ 32,
                          status := .readyToExecute }
          .ok { s with graphs := aupdate s.graphs graph_id (fun g =>
            { g with nodes := aupdate g.nodes task_id (fun _ => node'),
                     updated_at := now }) }

/-- The `TaskSpecification` rebuilt from each `SubTaskDefinition` inside
`handle_subtasks_generated` (`task_result_processor.rs` lines 239-248). -/
def subSpecOf (d : SubTaskDefinition) : TaskSpecification :=
  { name := d.title, description := d.description,
    required_role := d.task_spec.required_role,
    input_mappings := d.task_spec.input_mappings,
    priority := d.task_spec.priority,
    required_agent_role := d.task_spec.required_agent_role,
    context := d.task_spec.context,
    task_type := d.task_spec.task_type }

/-- The sub-task node-creation loop of `handle_subtasks_generated`
(lines 238-268): add each sub-spec as a node (persist-first through
`add_task_node_to_graph`), remembering `temp_id → new_id` and the list of
added node ids; on the first failure remove the nodes added so far and stop
with the failure flag set. -/
def addSubtasksGo (graph_id : String) :
    OrchState → List SubTaskDefinition → List (String × String) → List String →
    OrchState × List (String × String) × List String × Bool
  | s, [], temp_map, added_nodes => (s, temp_map, added_nodes, false)
  | s, d :: rest, temp_map, added_nodes =>
      match add_task_node_to_graph s graph_id (subSpecOf d) none none with
      | (.ok new_node_id, s) =>
          addSubtasksGo graph_id s rest (aupsert temp_map d.temp_id new_node_id)
            (added_nodes ++ [new_node_id])
      | (.error _, s) =>
          let s := added_nodes.foldl
            (fun s nid => remove_task_node s graph_id nid) s
          (s, temp_map, added_nodes, true)

/-- The sub-task edge-creation loop of `handle_subtasks_generated`
(lines 270-303): translate both temp ids through the mapping and add the
edge; the first missing temp id or failed `add_task_edge_to_graph` stops the
loop with the failure flag set (nothing is cleaned up here). -/
def addSubEdgesGo (graph_id : String) (temp_map : List (String × String)) :
    OrchState → List SubTaskEdgeDefinition → List String →
    OrchState × List String × Bool
  | s, [], added_edges => (s, added_edges, false)
  | s, e :: rest, added_edges =>
      match alookup temp_map e.from_subtask_temp_id with
      | none => (s, added_edges, true)
      | some from_id =>
          match alookup temp_map e.to_subtask_temp_id with
          | none => (s, added_edges, true)
          | some to_id =>
              match add_task_edge_to_graph s graph_id from_id to_id none none with
              | (.ok edge_id, s) =>
                  addSubEdgesGo graph_id temp_map s rest (added_edges ++ [edge_id])
              | (.error _, s) => (s, added_edges, true)

/-- The final status update of `handle_subtasks_generated`
(`task_result_processor.rs` lines 325-345): mark the original node Failed
with "Subtask decomposition failed", or Completed with the error cleared. -/
def finalizeOriginal (s : OrchState) (graph_id original_task_id : String)
    (decomposition_failed : Bool) (now : Nat) : OrchState :=
  { s with graphs := aupdate s.graphs graph_id (fun g =>
      { g with nodes := aupdate g.nodes original_task_id (fun n =>
          if decomposition_failed then
            { n with status := .failed, updated_at := now,
                     error_message := some "Subtask decomposition failed" }
          else
            { n with status := .completed, updated_at := now,
                     error_message := none }),
               updated_at := now }) }

/-- Rust `handle_subtasks_generated` (lines 210-353): add the sub-nodes, then the
sub-edges; on failure run the cleanup *only when at least one edge was added*
(line 306: `if decomposition_failed && !added_edges_ids.is_empty()`), then
mark the original node Failed with "Subtask decomposition failed" or
Completed on success.  The error result (it carries the mutated state, like
the Rust `return Err` after the lock-guarded mutations) is paired with the
final state. -/
def handle_subtasks_generated (s : OrchState) (original_task_id : String)
    (sub_tasks : List SubTaskDefinition)
    (sub_task_edges : List SubTaskEdgeDefinition) (now : Nat)
    (graph_id : String) : Except Unit Unit × OrchState :=
  match alookup s.graphs graph_id with
  | none => (.error (), s)
  | some g =>
      if acontains g.nodes original_task_id then
        let (s, temp_map, added_nodes, node_phase_failed) :=
          addSubtasksGo graph_id s sub_tasks [] []
        let (s, added_edges, decomposition_failed) :=
          if node_phase_failed then (s, [], true)
          else addSubEdgesGo graph_id temp_map s sub_task_edges []
        let s :=
          if decomposition_failed ∧ added_edges ≠ [] then
            let s := added_edges.foldl
              (fun s eid => remove_task_edge s graph_id eid) s
            if added_nodes ≠ [] then
              added_nodes.foldl (fun s nid => remove_task_node s graph_id nid) s
            else s
          else s
        let s := finalizeOriginal s graph_id original_task_id decomposition_failed now
        if decomposition_failed then (.error (), s) else (.ok (), s)
      else (.error (), s)

/-! ## Orchestrator router (`core_orchestrator/components/message_processor.rs`) -/

/-- The `TaskFailed` message `send_delegation_failure` publishes
(`message_processor.rs` lines 117-136). -/
def delegationFailureMsg (msg_id : String) (req : SubTaskDelegationRequest)
    (error_msg : String) : Message :=
  { id := msg_id, sender_id := "orchestrator",
    receiver_id := some req.delegating_agent_id,
    content := .agentResponse
      (.taskFailed req.parent_task_id req.delegating_agent_id error_msg) }

/-- The `DelegateSubTask` arm of the router (`message_processor.rs`
lines 112-187): find the graph of the parent task, add the sub-task node,
add the parent→sub edge; on any failure publish a `TaskFailed` to the
delegating agent for the parent id.  On success nothing further happens: the
source leaves recording the delegation mapping as a TODO (line 165). -/
def process_delegate_sub_task (s : OrchState) (req : SubTaskDelegationRequest) :
    OrchState × List Message :=
  match find_graph_id_for_task s req.parent_task_id with
  | none =>
      let (msg_id, s) := genId s
      (s, [delegationFailureMsg msg_id req
        ("Parent task with ID " ++ req.parent_task_id ++
          " not found in any active task graph. Cannot delegate subtask.")])
  | some graph_id =>
      match add_task_node_to_graph s graph_id req.sub_task_spec none none with
      | (.error _, s) =>
          let (msg_id, s) := genId s
          (s, [delegationFailureMsg msg_id req
            ("Failed to add delegated subtask node to graph " ++ graph_id)])
      | (.ok new_task_id, s) =>
          match add_task_edge_to_graph s graph_id req.parent_task_id
              new_task_id none none with
          | (.ok _, s) => (s, [])
          | (.error _, s) =>
              let (msg_id, s) := genId s
              (s, [delegationFailureMsg msg_id req
                ("Failed to add dependency edge from " ++ req.parent_task_id ++
                  " to " ++ new_task_id ++ " in graph " ++ graph_id)])

/-! ## Worker message loops (`agents/writer_agent.rs`, `agents/coder_agent.rs`)

Dispatch-level models of the `start` loops: the returned pair is the status
the loop sets before handing the message off, and the task passed to
`process_task` (if any).  Neither loop ever consults `message.receiver_id`. -/

/-- The `WriterAgent::start` dispatch (`writer_agent.rs` lines 97-152): on
`TaskAssignment` set the status to Busy and run `process_task` on the task;
the `ReturnInformation` arm (not a `TaskAssignment`) is out of scope here
and modelled as leaving the dispatch state unchanged. -/
def writer_dispatch (status : AgentStatus) (m : Message) :
    AgentStatus × Option TaskNode :=
  match m.content with
  | .taskAssignment task => (.busy, some task)
  | _ => (status, none)

/-- The `CoderAgent::start` dispatch (`coder_agent.rs` lines 97-121): on
`TaskAssignment` run `process_task` on the task without any status change
(neither the loop nor `CoderAgent::process_task` ever calls `set_status`);
on `DelegatedTaskCompletedNotification` set the status to Idle. -/
def coder_dispatch (status : AgentStatus) (m : Message) :
    AgentStatus × Option TaskNode :=
  match m.content with
  | .taskAssignment task => (status, some task)
  | .delegatedTaskCompletedNotification _ _ => (.idle, none)
  | _ => (status, none)

/-! ## Derived views and concrete fixtures -/

/-- The node stored under `node_id` in graph `graph_id`. -/
def nodeIn (s : OrchState) (graph_id node_id : String) : Option TaskNode :=
  (alookup s.graphs graph_id).bind (fun g => alookup g.nodes node_id)

/-- Whether graph `graph_id` holds an edge whose id is `edge_id`. -/
def edgeIn (s : OrchState) (graph_id edge_id : String) : Bool :=
  match alookup s.graphs graph_id with
  | none => false
  | some g => g.edges.any (fun e => e.id = edge_id)

/-- Saving a node and then loading it back by id
(the round-trip of `persistence/mod.rs`). -/
def saveLoad (db : DbState) (n : TaskNode) : Except Unit (Option TaskNode) :=
  (save_task db n).bind (fun db2 => load_task db2 n.id)

/-- A minimal generic specification (role SimpleWorker, no mappings). -/
def specD : TaskSpecification :=
  { name := "t", description := "d", required_role := .simpleWorker,
    input_mappings := [], priority := none, required_agent_role := none,
    context := none, task_type := .generic }

/-- A node fixture with the given id and status; other fields are defaults
and are overridden per fixture by structure update. -/
def mkNode (id : String) (status : TaskStatus) : TaskNode :=
  { id := id, name := "n", description := "d", task_spec := specD,
    status := status, agent_role_type := none, mcp_id := none, inputs := [],
    outputs := [], retry_count := 0, retry_policy := none,
    priority := 0, estimated_duration_ms := none,
    actual_duration_ms := none, created_at := 0, updated_at := 0,
    assigned_agent_id := none, error_message := none, sprint_id := none }

/-- A graph fixture holding the given nodes. -/
def mkGraph (nodes : List (String × TaskNode)) : TaskGraph :=
  { id := "g0", name := "g", description := "", nodes := nodes, edges := [],
    root_task_ids := [], status := .pending, overall_goal := "",
    created_at := 0, updated_at := 0 }

/-- An empty database whose writes succeed. -/
def dbD : DbState := { tasks := [], edges := [], sprints := [], writeOk := true }

/-- An orchestrator state holding one graph `g0` with the given nodes, the
given delegation map, and a working database. -/
def mkState (nodes : List (String × TaskNode))
    (delegated : List (String × String)) : OrchState :=
  { graphs := [("g0", mkGraph nodes)], delegated := delegated,
    sprints := [], db := dbD, fresh := 0, clock := 0 }

/-- C1 fixture: an empty graph plus one idle SimpleWorker. -/
def c1Agents : List AgentInfo := [{ id := "w1", role := .simpleWorker, status := .idle }]

/-- C1 fixture: the state after `add_task_node_to_graph` put one fresh node
(id `uuid-0`) into the previously empty graph `g0`. -/
def c1After : OrchState :=
  (add_task_node_to_graph (mkState [] []) "g0" specD none none).2

/-- C2 fixture: the delegation request a Coder would send for parent `p`. -/
def c2Req : SubTaskDelegationRequest :=
  { parent_task_id := "p", delegating_agent_id := "coder-1", sub_task_spec := specD }

/-- C2 fixture: a state whose graph `g0` holds the executing parent task `p`. -/
def c2State : OrchState := mkState [("p", mkNode "p" .executing)] []

/-- C3 fixture: the sub-task `t` is delegated by `coder-1`, who is registered
in the worker registry and waiting for the delegated task. -/
def c3State : OrchState :=
  mkState [("t", { mkNode "t" .executing with retry_count := 2 })]
    [("t", "coder-1")]

/-- C3 fixture: the registry contents at the time the sub-task completes. -/
def c3Agents : List AgentInfo :=
  [{ id := "coder-1", role := .coder, status := .waitingForDelegatedTask }]

/-- C5 claim as stated: within one cycle, for any two candidates of the
snapshot, the higher-priority one is considered (appears in the cycle trace)
before the lower-priority one. -/
def schedulerPriorityFirst (agents : List AgentInfo) (s : OrchState) : Prop :=
  ∀ p q : String × Nat,
    p ∈ (collectReadyTasks s.graphs).map (fun c => (c.2.id, c.2.priority)) →
    q ∈ (collectReadyTasks s.graphs).map (fun c => (c.2.id, c.2.priority)) →
    p.2 > q.2 →
    (run_scheduling_cycle agents s).2.2.indexOf p.1 <
      (run_scheduling_cycle agents s).2.2.indexOf q.1

/-- C6 fixture: a retry policy allowing two retries. -/
def c6Policy : TaskRetryPolicy :=
  { max_retries := 2, retry_delay_ms := 0, backoff_strategy := none }

/-- C6 fixture: an executing node carrying the retry policy. -/
def c6Node : TaskNode := { mkNode "t" .executing with retry_policy := some c6Policy }

/-- C6 fixture state. -/
def c6State : OrchState := mkState [("t", c6Node)] []

/-- C9 fixture: a node exercising every optional field, with in-range
numeric fields. -/
def c9GoodNode : TaskNode :=
  { mkNode "m" .readyToExecute with
      retry_count := 3, priority := 7,
      estimated_duration_ms := some 1000, actual_duration_ms := some 25,
      agent_role_type := some .coder, retry_policy := some c6Policy,
      error_message := some "e", sprint_id := some "sp",
      assigned_agent_id := some "w1", mcp_id := some "echo_v1",
      created_at := 11, updated_at := 12 }

/-- C4 fixture: a state whose database rejects writes. -/
def c4FailState : OrchState :=
  { mkState [] [] with db := { dbD with writeOk := false } }

/-- C5 fixture: two ready nodes, the lower-priority one first in map
iteration order. -/
def c5State : OrchState :=
  mkState [("a", { mkNode "a" .readyToExecute with priority := 1 }),
           ("b", { mkNode "b" .readyToExecute with priority := 5 })] []

/-- One `InputMapping` failing for a node, as the scheduler checks it
(`task_scheduler.rs` lines 107-148): the producer node is absent from the
graph, or no deliverable of the producer has canonical content equal to the
key. -/
def mappingFails (graphs : List (String × TaskGraph)) (graph_id : String)
    (m : InputMapping) : Prop :=
  ((alookup graphs graph_id).bind (fun g => alookup g.nodes m.source_task_id)) = none ∨
  (∃ p, ((alookup graphs graph_id).bind (fun g => alookup g.nodes m.source_task_id)) = some p ∧
    p.outputs.find? (fun d => decide (d.contentOf = m.deliverable_key)) = none)

/-- C7 fixture: consumer `nC` maps an input from producer `nA` under key
`KEY_X`, but `nA`'s outputs hold no deliverable with that content. -/
def c7Mapping : InputMapping :=
  { source_task_id := "nA", deliverable_key := "KEY_X", target_input_name := "in" }

/-- C7 fixture: the consumer node `nC` carrying the unresolvable mapping. -/
def c7Consumer : TaskNode :=
  { mkNode "nC" .readyToExecute with
      task_spec := { specD with input_mappings := [c7Mapping] } }

/-- C7 fixture: the producer `nA`, Completed with a non-matching deliverable. -/
def c7Producer : TaskNode :=
  { mkNode "nA" .completed with outputs := [.codePatch "other"] }

/-- C7 fixture state: producer Completed with a non-matching deliverable,
consumer ReadyToExecute. -/
def c7State : OrchState :=
  mkState [("nA", c7Producer), ("nC", c7Consumer)] []

/-- C8 fixture: one sub-task definition with temp id `tA`. -/
def c8Sub : SubTaskDefinition :=
  { title := "A", description := "dA", task_spec := specD, temp_id := "tA" }

/-- C8 fixture: a declared edge whose target temp id matches no sub-task. -/
def c8BadEdge : SubTaskEdgeDefinition :=
  { from_subtask_temp_id := "tA", to_subtask_temp_id := "tMissing",
    edge_type := .dependency }

/-- C8 fixture state: the decomposing original node `o`. -/
def c8State : OrchState := mkState [("o", mkNode "o" .executing)] []

/-- C8 fixture: a second sub-task definition with temp id `tB`. -/
def c8Sub2 : SubTaskDefinition :=
  { title := "B", description := "dB", task_spec := specD, temp_id := "tB" }

/-- C8 fixture: a declared edge between the two sub-tasks, resolvable and
addable (it becomes edge `uuid-2` before the bad edge fails). -/
def c8GoodEdge : SubTaskEdgeDefinition :=
  { from_subtask_temp_id := "tA", to_subtask_temp_id := "tB",
    edge_type := .dependency }

/-- C9 fixture: a node whose `retry_count` column value does not fit in the
`i32` that `load_task` reads it back through. -/
def c9Node : TaskNode := { mkNode "n" .completed with retry_count := 2 ^ 31 }

/-- C10 fixture: a task assignment directed at a different worker. -/
def c10Task : TaskNode := mkNode "t1" .executing

/-- C10 fixture: the directed message as delivered on the broadcast bus. -/
def c10Msg : Message :=
  { id := "m1", sender_id := "orchestrator", receiver_id := some "other-agent",
    content := .taskAssignment c10Task }

/-- C8 auxiliary view: the node `add_task_node_to_graph` builds for a
sub-task definition at the current fresh id. -/
def subNodeAt (s : OrchState) (d : SubTaskDefinition) : TaskNode :=
  newTaskNode ("uuid-" ++ toString s.fresh) (subSpecOf d) none none s.clock

/-- C8 auxiliary view: the state after the node phase added one sub-task
(persisted row plus in-memory insertion). -/
def stateAfterSubAdd (s : OrchState) (gid : String) (d : SubTaskDefinition) :
    OrchState :=
  { graphs := aupdate s.graphs gid (fun g2 =>
      { g2 with nodes := aupsert g2.nodes (subNodeAt s d).id (subNodeAt s d),
                updated_at := s.clock }),
    delegated := s.delegated, sprints := s.sprints,
    db := { s.db with
              tasks := aupsert s.db.tasks (subNodeAt s d).id
                (taskRowOf (subNodeAt s d)) },
    fresh := s.fresh + 1, clock := s.clock }

/-- C8 auxiliary view: the final state and flag of processing one sub-task
and one declared edge. -/
def c8Run : Except Unit Unit × OrchState :=
  handle_subtasks_generated c8State "o" [c8Sub] [c8BadEdge] 9 "g0"

/-- C8 auxiliary view: the success path with no declared edges. -/
def c8RunOk : Except Unit Unit × OrchState :=
  handle_subtasks_generated c8State "o" [c8Sub] [] 9 "g0"

/-! ## Lookup lemmas -/

theorem alookup_aupdate_self {α : Type} (l : List (String × α)) (key : String)
    (f : α → α) : alookup (aupdate l key f) key = (alookup l key).map f := by
  induction l with
  | nil => rfl
  | cons hd tl ih =>
      obtain ⟨k, v⟩ := hd
      by_cases h : k = key
      · simp [aupdate, alookup, h]
      · simp [aupdate, alookup, h, ih]

theorem alookup_aupdate_ne {α : Type} (l : List (String × α)) (key other : String)
    (f : α → α) (h : other ≠ key) :
    alookup (aupdate l key f) other = alookup l other := by
  induction l with
  | nil => rfl
  | cons hd tl ih =>
      obtain ⟨k, v⟩ := hd
      by_cases hk : k = key
      · subst hk
        simp [aupdate, alookup, Ne.symm h, ih]
      · simp [aupdate, alookup, hk, ih]

theorem alookup_aupsert_self {α : Type} (l : List (String × α)) (key : String)
    (v : α) : alookup (aupsert l key v) key = some v := by
  induction l with
  | nil => simp [aupsert, alookup]
  | cons hd tl ih =>
      obtain ⟨k, w⟩ := hd
      by_cases h : k = key
      · simp [aupsert, alookup, h]
      · simp [aupsert, alookup, h, ih]

theorem alookup_aupsert_ne {α : Type} (l : List (String × α)) (key other : String)
    (v : α) (h : other ≠ key) :
    alookup (aupsert l key v) other = alookup l other := by
  induction l with
  | nil => simp [aupsert, alookup, Ne.symm h]
  | cons hd tl ih =>
      obtain ⟨k, w⟩ := hd
      by_cases hk : k = key
      · subst hk
        simp [aupsert, alookup, Ne.symm h, ih]
      · simp [aupsert, alookup, hk, ih]

theorem alookup_aremove_self {α : Type} (l : List (String × α)) (key : String) :
    alookup (aremove l key) key = none := by
  induction l with
  | nil => rfl
  | cons hd tl ih =>
      obtain ⟨k, v⟩ := hd
      unfold aremove at ih ⊢
      rw [List.filter_cons]
      by_cases h : k = key
      · rw [if_neg (by simp [h])]
        exact ih
      · rw [if_pos (by simp [h])]
        simp only [alookup]
        rw [if_neg h]
        exact ih

theorem alookup_aremove_ne {α : Type} (l : List (String × α)) (key other : String)
    (h : other ≠ key) :
    alookup (aremove l key) other = alookup l other := by
  induction l with
  | nil => rfl
  | cons hd tl ih =>
      obtain ⟨k, v⟩ := hd
      unfold aremove at ih ⊢
      rw [List.filter_cons]
      by_cases hk : k = key
      · have hk2 : ¬ k = other := by rw [hk]; exact Ne.symm h
        rw [if_neg (by simp [hk])]
        simp only [alookup]
        rw [if_neg hk2]
        exact ih
      · rw [if_pos (by simp [hk])]
        simp only [alookup]
        by_cases ho : k = other
        · rw [if_pos ho, if_pos ho]
        · rw [if_neg ho, if_neg ho]
          exact ih

theorem alookup_aupsert_isSome {α : Type} (l : List (String × α))
    (key other : String) (v : α) (h : (alookup l other).isSome = true) :
    (alookup (aupsert l key v) other).isSome = true := by
  by_cases hk : other = key
  · subst hk
    rw [alookup_aupsert_self]
    rfl
  · rw [alookup_aupsert_ne _ _ _ _ hk]
    exact h

/-! ## Claim C1 -/

/-- C1 (the code violates the claim): a freshly created node has no incoming
dependency edges, so all of them (vacuously) lead to Completed nodes, yet no
component of the source ever moves it from `PendingDependencies` to
`ReadyToExecute`: after `add_task_node_to_graph` the fresh node `uuid-0` is
`PendingDependencies`, its graph has no edges, and a full scheduling cycle
with an idle matching worker leaves it `PendingDependencies`, considers no
candidate (the snapshot only admits `ReadyToExecute` nodes) and publishes
nothing. -/
theorem c1_fresh_node_never_becomes_ready :
    (nodeIn c1After "g0" "uuid-0").map (fun n => n.status) =
      some TaskStatus.pendingDependencies ∧
    (alookup c1After.graphs "g0").map (fun g => g.edges) = some [] ∧
    (nodeIn (run_scheduling_cycle c1Agents c1After).1 "g0" "uuid-0").map
      (fun n => n.status) = some TaskStatus.pendingDependencies ∧
    (run_scheduling_cycle c1Agents c1After).2.1 = [] ∧
    (run_scheduling_cycle c1Agents c1After).2.2 = [] :=
  ⟨rfl, rfl, rfl, rfl, rfl⟩

/-! ## Claim C2 -/

/-- C2 (the code violates the claim): processing a `DelegateSubTask` for
parent `p` finds the graph, adds the sub-task node `uuid-0`, adds the
dependency edge `p → uuid-0`, and publishes no failure; but the pair
`(uuid-0 → coder-1)` is **not** recorded in the delegation map (the source
leaves this as a TODO at `message_processor.rs` line 165), which the claim
requires. -/
theorem c2_delegation_mapping_not_recorded :
    (nodeIn (process_delegate_sub_task c2State c2Req).1 "g0" "uuid-0").map
      (fun n => n.status) = some TaskStatus.pendingDependencies ∧
    (alookup (process_delegate_sub_task c2State c2Req).1.graphs "g0").map
      (fun g => g.edges.map (fun e => (e.from_node_id, e.to_node_id))) =
      some [("p", "uuid-0")] ∧
    (process_delegate_sub_task c2State c2Req).2 = [] ∧
    (process_delegate_sub_task c2State c2Req).1.delegated = [] :=
  ⟨rfl, rfl, rfl, rfl⟩

/-! ## Claim C3 -/

/-- C3 (the code violates the claim): completing the delegated sub-task `t`
does set the node to Completed with the reported deliverables, clears the
error, resets the retry count, and takes the mapping; but although the
delegating worker `coder-1` is registered and `WaitingForDelegatedTask`, no
`DelegatedTaskCompletedNotification` is published, because
`AgentManager::get_agent` (`agent_manager/mod.rs` lines 158-160)
unconditionally returns `None`. -/
theorem c3_delegation_notification_never_sent :
    (handle_task_completed_success c3Agents c3State "t" [.codePatch "code"] 5 "g0").toOption.map
      (fun p => p.2) = some [] ∧
    ((handle_task_completed_success c3Agents c3State "t" [.codePatch "code"] 5 "g0").toOption.bind
      (fun p => nodeIn p.1 "g0" "t")).map (fun n =>
        (n.status, n.outputs, n.error_message, n.retry_count)) =
      some (TaskStatus.completed, [Deliverable.codePatch "code"], none, 0) ∧
    (handle_task_completed_success c3Agents c3State "t" [.codePatch "code"] 5 "g0").toOption.map
      (fun p => p.1.delegated) = some [] ∧
    get_agent c3Agents "coder-1" = none ∧
    c3Agents.find? (fun a => decide (a.id = "coder-1")) =
      some { id := "coder-1", role := .coder, status := .waitingForDelegatedTask } :=
  ⟨rfl, rfl, rfl, rfl, rfl⟩

/-! ## Claim C4 -/

theorem resolveInputs_db_const (gid : String) (ms : List InputMapping) :
    ∀ (s : OrchState) (acc : List TaskInput),
      (resolveInputs gid s ms acc).2.db = s.db := by
  induction ms with
  | nil => intro s acc; rfl
  | cons m rest ih =>
      intro s acc
      simp only [resolveInputs]
      rcases hsrc : (alookup s.graphs gid).bind
          (fun g => alookup g.nodes m.source_task_id) with _ | src
      · rfl
      · dsimp only
        cases hfind : src.outputs.find?
            (fun d => decide (d.contentOf = m.deliverable_key)) with
        | none => rfl
        | some d => exact ih (genId s).2 _

theorem schedStep_db (agents : List AgentInfo)
    (acc : OrchState × List Message × List String) (c : String × TaskNode) :
    (schedStep agents acc c).1.db = acc.1.db := by
  obtain ⟨s, msgs, trace⟩ := acc
  obtain ⟨gid, node⟩ := c
  simp only [schedStep]
  rcases hres : resolveInputs gid s node.task_spec.input_mappings [] with ⟨resolved, s2⟩
  have hdb : s2.db = s.db := by
    have := resolveInputs_db_const gid node.task_spec.input_mappings s []
    rw [hres] at this
    exact this
  dsimp only
  cases resolved with
  | none => exact hdb
  | some inputs =>
      dsimp only
      cases find_available_agent agents node.task_spec.required_agent_role with
      | none => exact hdb
      | some agent =>
          dsimp only
          cases (alookup s2.graphs gid).bind (fun g => alookup g.nodes node.id) with
          | none => exact hdb
          | some cur => exact hdb

theorem sched_foldl_db (agents : List AgentInfo) (l : List (String × TaskNode)) :
    ∀ init : OrchState × List Message × List String,
      (l.foldl (schedStep agents) init).1.db = init.1.db := by
  induction l with
  | nil => intro init; rfl
  | cons hd tl ih =>
      intro init
      rw [List.foldl_cons, ih, schedStep_db]

/-- C4 counterexample: `remove_task_node` advances the in-memory state (the
node disappears from graph `g0`) while performing no persistence write at
all — the database still holds the removed node's row afterwards
(`task_graph_manager.rs` lines 130-137 contain no `persistence::` call).
This refutes the claim that *every* mutating graph operation is written
through to the store before memory is updated. -/
theorem c4_remove_node_not_write_through :
    (nodeIn c1After "g0" "uuid-0").isSome = true ∧
    nodeIn (remove_task_node c1After "g0" "uuid-0") "g0" "uuid-0" = none ∧
    (remove_task_node c1After "g0" "uuid-0").db = c1After.db ∧
    (alookup (remove_task_node c1After "g0" "uuid-0").db.tasks "uuid-0").isSome = true :=
  ⟨rfl, rfl, rfl, rfl⟩

/-- C4 amended: the *adding/creating/sprint* mutations
(`add_task_node_to_graph`, `add_task_edge_to_graph`, `create_sprint`,
`start_sprint`, `complete_sprint`) are write-through and persist first — a
failed persistence write leaves the in-memory state unchanged (for the
sprint transitions the whole state is returned untouched), a successful
node insertion has stored the node's row, and a successful sprint
start/completion has stored the updated sprint both in memory and in the
store; but `remove_task_node` and `remove_task_edge` never touch the
persistence store at all, and the node-status updates never write either:
a full scheduling cycle leaves the database exactly unchanged, as does
every successful `handle_task_failure` and
`handle_task_completed_success`. -/
theorem c4_amended_write_through (s : OrchState) (agents : List AgentInfo)
    (gid nid eid frId toId nid2 goal spid err : String) (nm cond : Option String)
    (spec : TaskSpecification) (sid : Option String) (ed : Option Nat)
    (dm : Option (List (String × String))) (fatal : Bool) (now2 : Nat)
    (outs : List Deliverable) :
    (s.db.writeOk = false →
      (add_task_node_to_graph s gid spec sid ed).1 = .error () ∧
      (add_task_node_to_graph s gid spec sid ed).2.graphs = s.graphs) ∧
    (s.db.writeOk = false →
      (add_task_edge_to_graph s gid frId toId cond dm).2.graphs = s.graphs) ∧
    (s.db.writeOk = false → (create_sprint s nm goal).2.sprints = s.sprints) ∧
    (remove_task_node s gid nid).db = s.db ∧
    (remove_task_edge s gid eid).db = s.db ∧
    ((add_task_node_to_graph s gid spec sid ed).1 = .ok nid2 →
      alookup (add_task_node_to_graph s gid spec sid ed).2.db.tasks nid2 =
        some (taskRowOf (newTaskNode nid2 spec sid ed s.clock))) ∧
    (s.db.writeOk = false → start_sprint s spid = (.error (), s)) ∧
    (s.db.writeOk = false → complete_sprint s spid = (.error (), s)) ∧
    (∀ sp, alookup s.sprints spid = some sp → (start_sprint s spid).1 = .ok () →
      alookup (start_sprint s spid).2.sprints spid =
        some { sp with status := .active, start_date := some s.clock } ∧
      alookup (start_sprint s spid).2.db.sprints sp.id =
        some { sp with status := .active, start_date := some s.clock }) ∧
    (∀ sp, alookup s.sprints spid = some sp →
      (complete_sprint s spid).1 = .ok () →
      alookup (complete_sprint s spid).2.sprints spid =
        some { sp with status := .completed, end_date := some s.clock } ∧
      alookup (complete_sprint s spid).2.db.sprints sp.id =
        some { sp with status := .completed, end_date := some s.clock }) ∧
    (run_scheduling_cycle agents s).1.db = s.db ∧
    (∀ s2, handle_task_failure s nid err fatal now2 gid = .ok s2 →
      s2.db = s.db) ∧
    (∀ p, handle_task_completed_success agents s nid outs now2 gid = .ok p →
      p.1.db = s.db) := by
  refine ⟨?_, ?_, ?_, ?_, ?_, ?_, ?_, ?_, ?_, ?_, ?_, ?_, ?_⟩
  · intro hw
    simp [add_task_node_to_graph, save_task, genId, hw]
  · intro hw
    unfold add_task_edge_to_graph
    cases halo : alookup s.graphs gid with
    | none => rfl
    | some g =>
        dsimp only
        split
        · split
          · simp [save_task_dependency, genId, hw]
          · rfl
        · rfl
  · intro hw
    simp [create_sprint, save_sprint, genId, hw]
  · unfold remove_task_node
    split <;> rfl
  · unfold remove_task_edge
    split <;> rfl
  · intro hok
    simp only [add_task_node_to_graph, genId] at hok ⊢
    rcases hsv : save_task s.db
        (newTaskNode ("uuid-" ++ toString s.fresh) spec sid ed s.clock) with _ | db2
    · rw [hsv] at hok
      simp at hok
    · have hdb2 : db2 = { s.db with
          tasks := aupsert s.db.tasks ("uuid-" ++ toString s.fresh)
            (taskRowOf (newTaskNode ("uuid-" ++ toString s.fresh) spec sid ed s.clock)) } := by
        unfold save_task at hsv
        split at hsv
        · injection hsv with h
          exact h.symm
        · exact absurd hsv (by simp)
      rw [hsv] at hok
      dsimp only at hok ⊢
      by_cases hc : acontains s.graphs gid = true
      · rw [hc] at hok ⊢
        rw [if_pos rfl] at hok ⊢
        dsimp only at hok ⊢
        obtain rfl : ("uuid-" ++ toString s.fresh) = nid2 := by
          injection hok
        rw [hdb2]
        exact alookup_aupsert_self _ _ _
      · rw [if_neg hc] at hok
        exact absurd hok (by simp)
  · intro hw
    unfold start_sprint
    cases alookup s.sprints spid with
    | none => rfl
    | some sp =>
        dsimp only
        split
        · simp [save_sprint, hw]
        · rfl
  · intro hw
    unfold complete_sprint
    cases alookup s.sprints spid with
    | none => rfl
    | some sp =>
        dsimp only
        split
        · simp [save_sprint, hw]
        · rfl
  · intro sp halo hok
    unfold start_sprint at hok ⊢
    rw [halo] at hok ⊢
    dsimp only at hok ⊢
    by_cases hst : sp.status = .planned
    · rw [if_pos hst] at hok ⊢
      cases hsv : save_sprint s.db
          { sp with status := .active, start_date := some s.clock } with
      | error e =>
          rw [hsv] at hok
          exact absurd hok (by simp)
      | ok db2 =>
          have hdb2 : db2 = { s.db with
              sprints := aupsert s.db.sprints sp.id
                { sp with status := .active, start_date := some s.clock } } := by
            unfold save_sprint at hsv
            split at hsv
            · injection hsv with h
              exact h.symm
            · exact absurd hsv (by simp)
          dsimp only
          rw [hdb2]
          dsimp only
          rw [alookup_aupsert_self, alookup_aupsert_self]
          exact ⟨rfl, rfl⟩
    · rw [if_neg hst] at hok
      exact absurd hok (by simp)
  · intro sp halo hok
    unfold complete_sprint at hok ⊢
    rw [halo] at hok ⊢
    dsimp only at hok ⊢
    by_cases hst : sp.status = .active
    · rw [if_pos hst] at hok ⊢
      cases hsv : save_sprint s.db
          { sp with status := .completed, end_date := some s.clock } with
      | error e =>
          rw [hsv] at hok
          exact absurd hok (by simp)
      | ok db2 =>
          have hdb2 : db2 = { s.db with
              sprints := aupsert s.db.sprints sp.id
                { sp with status := .completed, end_date := some s.clock } } := by
            unfold save_sprint at hsv
            split at hsv
            · injection hsv with h
              exact h.symm
            · exact absurd hsv (by simp)
          dsimp only
          rw [hdb2]
          dsimp only
          rw [alookup_aupsert_self, alookup_aupsert_self]
          exact ⟨rfl, rfl⟩
    · rw [if_neg hst] at hok
      exact absurd hok (by simp)
  · exact sched_foldl_db agents (collectReadyTasks s.graphs) (s, [], [])
  · intro s2 hok
    unfold handle_task_failure at hok
    cases hg2 : alookup s.graphs gid with
    | none =>
        rw [hg2] at hok
        exact absurd hok (by simp)
    | some g2 =>
        rw [hg2] at hok
        dsimp only at hok
        cases hn2 : alookup g2.nodes nid with
        | none =>
            rw [hn2] at hok
            exact absurd hok (by simp)
        | some node =>
            rw [hn2] at hok
            dsimp only at hok
            injection hok with h
            subst h
            rfl
  · intro p hok
    unfold handle_task_completed_success at hok
    cases hg2 : alookup s.graphs gid with
    | none =>
        rw [hg2] at hok
        exact absurd hok (by simp)
    | some g2 =>
        rw [hg2] at hok
        dsimp only at hok
        cases hn2 : alookup g2.nodes nid with
        | none =>
            rw [hn2] at hok
            exact absurd hok (by simp)
        | some node =>
            rw [hn2] at hok
            dsimp only [remove_delegated_task_mapping, get_agent] at hok
            cases htk : alookup s.delegated nid with
            | none =>
                rw [htk] at hok
                dsimp only at hok
                injection hok with h
                subst h
                rfl
            | some dele =>
                rw [htk] at hok
                dsimp only at hok
                injection hok with h
                subst h
                rfl

/-- C4 witness: the amended theorem applied to the failing-database state for
the write-through halves and to `c1After` for the memory-only removals. -/
theorem c4_witness :
    ((add_task_node_to_graph c4FailState "g0" specD none none).1 = .error () ∧
      (add_task_node_to_graph c4FailState "g0" specD none none).2.graphs =
        c4FailState.graphs) ∧
    (remove_task_node c1After "g0" "uuid-0").db = c1After.db ∧
    start_sprint c4FailState "sp" = (.error (), c4FailState) ∧
    (run_scheduling_cycle c1Agents c1After).1.db = c1After.db :=
  ⟨(c4_amended_write_through c4FailState c1Agents "g0" "n" "e" "f" "t" "x"
      "goal" "sp" "err" none none specD none none none false 3 []).1 rfl,
    (c4_amended_write_through c1After c1Agents "g0" "uuid-0" "e" "f" "t" "x"
      "goal" "sp" "err" none none specD none none none false 3 []).2.2.2.1,
    (c4_amended_write_through c4FailState c1Agents "g0" "n" "e" "f" "t" "x"
      "goal" "sp" "err" none none specD none none none false 3
      []).2.2.2.2.2.2.1 rfl,
    (c4_amended_write_through c1After c1Agents "g0" "uuid-0" "e" "f" "t" "x"
      "goal" "sp" "err" none none specD none none none false 3
      []).2.2.2.2.2.2.2.2.2.2.1⟩

/-! ## Claim C5 -/

/-- C5 counterexample: in a snapshot holding `a` (priority 1) before `b`
(priority 5) in map iteration order, the cycle considers `a` first, so the
higher-priority candidate is **not** processed before the lower-priority
one: `run_scheduling_cycle` applies no ordering to the snapshot
(`task_scheduler.rs` lines 52-81). -/
theorem c5_not_priority_ordered : ¬ schedulerPriorityFirst [] c5State := by
  intro h
  have hb : ("b", 5) ∈ (collectReadyTasks c5State.graphs).map
      (fun c => (c.2.id, c.2.priority)) := by decide
  have ha : ("a", 1) ∈ (collectReadyTasks c5State.graphs).map
      (fun c => (c.2.id, c.2.priority)) := by decide
  have hlt := h ("b", 5) ("a", 1) hb ha (by decide)
  exact absurd hlt (by decide)

theorem schedStep_trace (agents : List AgentInfo)
    (acc : OrchState × List Message × List String) (c : String × TaskNode) :
    (schedStep agents acc c).2.2 = acc.2.2 ++ [c.2.id] := by
  obtain ⟨s, msgs, trace⟩ := acc
  obtain ⟨gid, node⟩ := c
  simp only [schedStep]
  repeat' split
  all_goals rfl

theorem sched_foldl_trace (agents : List AgentInfo)
    (l : List (String × TaskNode)) :
    ∀ init : OrchState × List Message × List String,
      (l.foldl (schedStep agents) init).2.2 =
        init.2.2 ++ l.map (fun c => c.2.id) := by
  induction l with
  | nil => intro init; simp
  | cons hd tl ih =>
      intro init
      simp only [List.foldl_cons, List.map_cons, ih, schedStep_trace]
      simp

/-- C5 amended: within one cycle the scheduler processes the snapshot of
`ReadyToExecute` nodes exactly in the map-iteration order in which
`collectReadyTasks` gathered it; no sorting by priority or creation
timestamp is applied. -/
theorem c5_amended_snapshot_order (agents : List AgentInfo) (s : OrchState) :
    (run_scheduling_cycle agents s).2.2 =
      (collectReadyTasks s.graphs).map (fun c => c.2.id) := by
  simpa using sched_foldl_trace agents (collectReadyTasks s.graphs) (s, [], [])

/-! ## Claim C6 -/

/-- C6: for a `TaskFailed` result on node `tid` (the result processor always
passes `is_fatal = false`), the error string is stored in `error_message` in
both branches; when `retry_count ≥ max_retries` (0 without a policy) the
node becomes Failed with an unchanged retry count, otherwise `retry_count`
grows by exactly one and the node returns to `ReadyToExecute`.  The bound
`maxRetriesOf n < 2 ^ 32` records that `max_retries` is a Rust `u8` widened
to `u32`, which keeps the `u32` increment exact. -/
theorem c6_task_failed_retry_policy (s : OrchState) (gid tid e : String)
    (now : Nat) (g : TaskGraph) (n : TaskNode)
    (hg : alookup s.graphs gid = some g)
    (hn : alookup g.nodes tid = some n)
    (hmax : maxRetriesOf n < 2 ^ 32) :
    ∃ s2, handle_task_failure s tid e false now gid = .ok s2 ∧
      ∃ n2, nodeIn s2 gid tid = some n2 ∧
        n2.error_message = some e ∧
        (n.retry_count ≥ maxRetriesOf n →
          n2.status = TaskStatus.failed ∧ n2.retry_count = n.retry_count) ∧
        (n.retry_count < maxRetriesOf n →
          n2.status = TaskStatus.readyToExecute ∧
            n2.retry_count = n.retry_count + 1) := by
  simp only [handle_task_failure, hg, hn, Bool.false_eq_true, false_or]
  by_cases hc : n.retry_count ≥ maxRetriesOf n
  · rw [if_pos hc]
    refine ⟨_, rfl,
      { n with updated_at := now, error_message := some e,
               status := TaskStatus.failed },
      ?_, rfl, fun _ => ⟨rfl, rfl⟩, fun hlt => absurd hc (by omega)⟩
    simp only [nodeIn]
    rw [alookup_aupdate_self, hg]
    simp only [Option.map_some', Option.some_bind]
    rw [alookup_aupdate_self, hn]
    rfl
  · rw [if_neg hc]
    refine ⟨_, rfl,
      { n with updated_at := now, error_message := some e,
               retry_count := (n.retry_count + 1) % 2 ^ 32,
               status := TaskStatus.readyToExecute },
      ?_, rfl, fun hge => absurd hge hc,
      fun hlt => ⟨rfl, Nat.mod_eq_of_lt (by omega)⟩⟩
    simp only [nodeIn]
    rw [alookup_aupdate_self, hg]
    simp only [Option.map_some', Option.some_bind]
    rw [alookup_aupdate_self, hn]
    rfl

/-! ## Claim C7 -/

theorem resolveInputs_graphs_const (gid : String) (ms : List InputMapping) :
    ∀ (s : OrchState) (acc : List TaskInput),
      (resolveInputs gid s ms acc).2.graphs = s.graphs := by
  induction ms with
  | nil => intro s acc; rfl
  | cons m rest ih =>
      intro s acc
      simp only [resolveInputs]
      rcases hsrc : (alookup s.graphs gid).bind
          (fun g => alookup g.nodes m.source_task_id) with _ | src
      · rfl
      · dsimp only
        cases hfind : src.outputs.find?
            (fun d => decide (d.contentOf = m.deliverable_key)) with
        | none => rfl
        | some d => exact ih (genId s).2 _

theorem resolveInputs_none_of_fails (gid : String) (ms : List InputMapping) :
    ∀ (s : OrchState) (acc : List TaskInput),
      (∃ m ∈ ms, mappingFails s.graphs gid m) →
      (resolveInputs gid s ms acc).1 = none := by
  induction ms with
  | nil =>
      intro s acc h
      obtain ⟨m, hm, _⟩ := h
      exact absurd hm (List.not_mem_nil m)
  | cons m rest ih =>
      intro s acc h
      simp only [resolveInputs]
      rcases hsrc : (alookup s.graphs gid).bind
          (fun g => alookup g.nodes m.source_task_id) with _ | src
      · rfl
      · dsimp only
        cases hfind : src.outputs.find?
            (fun d => decide (d.contentOf = m.deliverable_key)) with
        | none => rfl
        | some d =>
          obtain ⟨m0, hm0, hf0⟩ := h
          rcases List.mem_cons.mp hm0 with hme | hmr
          · subst hme
            rcases hf0 with hnone | ⟨p, hp, hpf⟩
            · rw [hsrc] at hnone
              exact absurd hnone (by simp)
            · rw [hsrc] at hp
              obtain rfl : src = p := by injection hp
              rw [hfind] at hpf
              exact absurd hpf (by simp)
          · exact ih (genId s).2 _ ⟨m0, hmr, hf0⟩

/-- C7: when the snapshot of a cycle holds the single candidate `n` and some
`InputMapping` of `n` names a producer missing from the graph or a
`deliverable_key` matching no deliverable content of the producer, the cycle
marks `n` Failed with an error message beginning "Input mapping failed",
leaves its `assigned_agent_id` and `retry_count` untouched (no worker
assignment, no retry), and publishes no `TaskAssignment`. -/
theorem c7_input_binding_failure (agents : List AgentInfo) (s : OrchState)
    (gid : String) (g : TaskGraph) (n : TaskNode)
    (hsnap : collectReadyTasks s.graphs = [(gid, n)])
    (hg : alookup s.graphs gid = some g)
    (hn : alookup g.nodes n.id = some n)
    (hfail : ∃ m ∈ n.task_spec.input_mappings, mappingFails s.graphs gid m) :
    ∃ n2, nodeIn (run_scheduling_cycle agents s).1 gid n.id = some n2 ∧
      n2.status = TaskStatus.failed ∧
      (∃ rest, n2.error_message = some ("Input mapping failed" ++ rest)) ∧
      n2.assigned_agent_id = n.assigned_agent_id ∧
      n2.retry_count = n.retry_count ∧
      (run_scheduling_cycle agents s).2.1 = [] := by
  have hcycle : run_scheduling_cycle agents s = schedStep agents (s, [], []) (gid, n) := by
    unfold run_scheduling_cycle
    rw [hsnap]
    rfl
  rcases hres : resolveInputs gid s n.task_spec.input_mappings [] with ⟨res, s2⟩
  have hres1 : res = none := by
    have := resolveInputs_none_of_fails gid n.task_spec.input_mappings s [] hfail
    rw [hres] at this
    exact this
  subst hres1
  have hgr2 : s2.graphs = s.graphs := by
    have := resolveInputs_graphs_const gid n.task_spec.input_mappings s []
    rw [hres] at this
    exact this
  have hstep : schedStep agents (s, [], []) (gid, n) =
      ({ s2 with graphs := aupdate s2.graphs gid (fun g2 =>
          { g2 with nodes := aupdate g2.nodes n.id (fun n2 =>
              { n2 with status := .failed,
                        error_message := some
                          ("Input mapping failed. Could not resolve inputs based on mappings: "
                            ++ inputMappingsDebug n.task_spec.input_mappings) }) }) },
        [], [n.id]) := by
    simp only [schedStep, hres]
    rfl
  rw [hcycle, hstep]
  refine
    ⟨{ n with status := TaskStatus.failed,
              error_message := some
                ("Input mapping failed. Could not resolve inputs based on mappings: "
                  ++ inputMappingsDebug n.task_spec.input_mappings) },
      ?_, rfl, ?_, rfl, rfl, rfl⟩
  · simp only [nodeIn, hgr2]
    rw [alookup_aupdate_self, hg]
    simp only [Option.map_some', Option.some_bind]
    rw [alookup_aupdate_self, hn]
    rfl
  · refine ⟨". Could not resolve inputs based on mappings: "
      ++ inputMappingsDebug n.task_spec.input_mappings, ?_⟩
    simp only
    rw [← String.append_assoc]
    exact congrArg (fun x => some (x ++ inputMappingsDebug n.task_spec.input_mappings))
      (by decide)

/-- C7 witness: the theorem applied to the concrete state `c7State`, whose
single ready candidate `nC` maps an input from producer `nA` under key
`KEY_X` while `nA` only offers a `CodePatch` with content `other`. -/
theorem c7_witness :
    collectReadyTasks c7State.graphs = [("g0", c7Consumer)] ∧
    alookup c7State.graphs "g0" =
      some (mkGraph [("nA", c7Producer), ("nC", c7Consumer)]) ∧
    (∃ m ∈ c7Consumer.task_spec.input_mappings, mappingFails c7State.graphs "g0" m) ∧
    (∃ n2, nodeIn (run_scheduling_cycle [] c7State).1 "g0" c7Consumer.id = some n2 ∧
      n2.status = TaskStatus.failed ∧
      (∃ rest, n2.error_message = some ("Input mapping failed" ++ rest)) ∧
      n2.assigned_agent_id = c7Consumer.assigned_agent_id ∧
      n2.retry_count = c7Consumer.retry_count ∧
      (run_scheduling_cycle [] c7State).2.1 = []) := by
  have hfail : ∃ m ∈ c7Consumer.task_spec.input_mappings,
      mappingFails c7State.graphs "g0" m := by
    refine ⟨c7Mapping, by decide, Or.inr ?_⟩
    exact ⟨c7Producer, rfl, rfl⟩
  exact ⟨rfl, rfl, hfail,
    c7_input_binding_failure [] c7State "g0" _ c7Consumer rfl rfl rfl hfail⟩

/-- C6 witness: the theorem applied to the concrete state `c6State`, where
node `t` has `retry_count = 0` and a policy with `max_retries = 2`. -/
theorem c6_witness :
    alookup c6State.graphs "g0" = some (mkGraph [("t", c6Node)]) ∧
    alookup (mkGraph [("t", c6Node)]).nodes "t" = some c6Node ∧
    maxRetriesOf c6Node < 2 ^ 32 ∧
    (∃ s2, handle_task_failure c6State "t" "boom" false 7 "g0" = .ok s2 ∧
      ∃ n2, nodeIn s2 "g0" "t" = some n2 ∧
        n2.error_message = some "boom" ∧
        (c6Node.retry_count ≥ maxRetriesOf c6Node →
          n2.status = TaskStatus.failed ∧ n2.retry_count = c6Node.retry_count) ∧
        (c6Node.retry_count < maxRetriesOf c6Node →
          n2.status = TaskStatus.readyToExecute ∧
            n2.retry_count = c6Node.retry_count + 1)) :=
  ⟨rfl, rfl, by decide,
    c6_task_failed_retry_policy c6State "g0" "t" "boom" 7 (mkGraph [("t", c6Node)])
      c6Node rfl rfl (by decide)⟩

/-! ## Claim C8 -/

/-- C8 counterexample: decomposing `o` into one sub-task (temp id `tA`) with
one declared edge whose target temp id `tMissing` matches no sub-task makes
the edge phase fail before any edge is added, so the batch cleanup
(`task_result_processor.rs` line 306 requires `!added_edges_ids.is_empty()`)
is skipped entirely: the added sub-node `uuid-0` **remains in the graph**,
refuting the claim that every sub-node added in the batch is removed again.
The original node is still marked Failed with "Subtask decomposition
failed". -/
theorem c8_rollback_skipped_without_edges :
    c8Run.1 = .error () ∧
    (nodeIn c8Run.2 "g0" "uuid-0").isSome = true ∧
    (nodeIn c8Run.2 "g0" "o").map (fun n => (n.status, n.error_message)) =
      some (TaskStatus.failed, some "Subtask decomposition failed") :=
  ⟨rfl, rfl, rfl⟩

/-! ### Rollback toolkit for `handle_subtasks_generated` -/

theorem newTaskNode_id (nid : String) (spec : TaskSpecification)
    (sid : Option String) (ed : Option Nat) (now0 : Nat) :
    (newTaskNode nid spec sid ed now0).id = nid := rfl

theorem nodeIn_remove_self (s : OrchState) (gid nid : String) :
    nodeIn (remove_task_node s gid nid) gid nid = none := by
  unfold remove_task_node nodeIn
  by_cases hc : acontains s.graphs gid
  · rw [if_pos hc]
    dsimp only
    rw [alookup_aupdate_self]
    cases alookup s.graphs gid with
    | none => rfl
    | some g =>
        simp only [Option.map_some', Option.some_bind]
        exact alookup_aremove_self _ _
  · rw [if_neg hc]
    unfold acontains at hc
    cases hg : alookup s.graphs gid with
    | none => rfl
    | some g => rw [hg] at hc; exact absurd rfl hc

theorem nodeIn_remove_ne (s : OrchState) (gid nid x : String) (hx : x ≠ nid) :
    nodeIn (remove_task_node s gid nid) gid x = nodeIn s gid x := by
  unfold remove_task_node nodeIn
  by_cases hc : acontains s.graphs gid
  · rw [if_pos hc]
    dsimp only
    rw [alookup_aupdate_self]
    cases alookup s.graphs gid with
    | none => rfl
    | some g =>
        simp only [Option.map_some', Option.some_bind]
        exact alookup_aremove_ne _ _ _ hx
  · rw [if_neg hc]

theorem edgeIn_remove_node (s : OrchState) (gid nid e : String) :
    edgeIn (remove_task_node s gid nid) gid e = edgeIn s gid e := by
  unfold remove_task_node edgeIn
  by_cases hc : acontains s.graphs gid
  · rw [if_pos hc]
    dsimp only
    rw [alookup_aupdate_self]
    cases alookup s.graphs gid with
    | none => rfl
    | some g => rfl
  · rw [if_neg hc]

theorem nodeIn_remove_edge (s : OrchState) (gid eid x : String) :
    nodeIn (remove_task_edge s gid eid) gid x = nodeIn s gid x := by
  unfold remove_task_edge nodeIn
  by_cases hc : acontains s.graphs gid
  · rw [if_pos hc]
    dsimp only
    rw [alookup_aupdate_self]
    cases alookup s.graphs gid with
    | none => rfl
    | some g => rfl
  · rw [if_neg hc]

theorem any_id_filter_ne (l : List TaskEdge) (eid e : String) (h : e ≠ eid) :
    (l.filter (fun x => x.id ≠ eid)).any (fun x => x.id = e) =
      l.any (fun x => x.id = e) := by
  induction l with
  | nil => rfl
  | cons hd tl ih =>
      rw [List.filter_cons, List.any_cons]
      by_cases hh : hd.id = eid
      · rw [if_neg (by simp [hh])]
        rw [ih]
        have hdec : decide (hd.id = e) = false := by simp [hh, Ne.symm h]
        rw [hdec, Bool.false_or]
      · rw [if_pos (by simp [hh]), List.any_cons, ih]

theorem edgeIn_remove_edge_self (s : OrchState) (gid eid : String) :
    edgeIn (remove_task_edge s gid eid) gid eid = false := by
  unfold remove_task_edge edgeIn
  by_cases hc : acontains s.graphs gid
  · rw [if_pos hc]
    dsimp only
    rw [alookup_aupdate_self]
    cases alookup s.graphs gid with
    | none => rfl
    | some g =>
        simp only [Option.map_some']
        simp [List.any_eq_true, List.mem_filter]
  · rw [if_neg hc]
    unfold acontains at hc
    cases hg : alookup s.graphs gid with
    | none => rfl
    | some g => rw [hg] at hc; exact absurd rfl hc

theorem edgeIn_remove_edge_ne (s : OrchState) (gid eid e : String) (h : e ≠ eid) :
    edgeIn (remove_task_edge s gid eid) gid e = edgeIn s gid e := by
  unfold remove_task_edge edgeIn
  by_cases hc : acontains s.graphs gid
  · rw [if_pos hc]
    dsimp only
    rw [alookup_aupdate_self]
    cases alookup s.graphs gid with
    | none => rfl
    | some g =>
        simp only [Option.map_some']
        exact any_id_filter_ne _ _ _ h
  · rw [if_neg hc]

theorem add_node_nodes_mono (s : OrchState) (gid : String)
    (spec : TaskSpecification) (sid : Option String) (ed : Option Nat)
    (x : String) (h : (nodeIn s gid x).isSome = true) :
    (nodeIn (add_task_node_to_graph s gid spec sid ed).2 gid x).isSome = true := by
  simp only [add_task_node_to_graph, genId]
  rcases hsv : save_task s.db
      (newTaskNode ("uuid-" ++ toString s.fresh) spec sid ed s.clock) with _ | db2
  · exact h
  · dsimp only
    by_cases hc : acontains s.graphs gid = true
    · rw [hc, if_pos rfl]
      dsimp only
      unfold nodeIn at h ⊢
      rw [alookup_aupdate_self]
      cases hg : alookup s.graphs gid with
      | none => rw [hg] at h; simp at h
      | some g =>
          rw [hg] at h
          simp only [Option.map_some', Option.some_bind] at h ⊢
          exact alookup_aupsert_isSome _ _ _ _ h
    · rw [if_neg hc]
      exact h

theorem add_node_edges_const (s : OrchState) (gid : String)
    (spec : TaskSpecification) (sid : Option String) (ed : Option Nat)
    (e : String) :
    edgeIn (add_task_node_to_graph s gid spec sid ed).2 gid e = edgeIn s gid e := by
  simp only [add_task_node_to_graph, genId]
  rcases hsv : save_task s.db
      (newTaskNode ("uuid-" ++ toString s.fresh) spec sid ed s.clock) with _ | db2
  · rfl
  · dsimp only
    by_cases hc : acontains s.graphs gid = true
    · rw [hc, if_pos rfl]
      dsimp only
      unfold edgeIn
      rw [alookup_aupdate_self]
      cases hg : alookup s.graphs gid with
      | none => rfl
      | some g => rfl
    · rw [if_neg hc]
      rfl

theorem add_node_ok_present (s : OrchState) (gid : String)
    (spec : TaskSpecification) (sid : Option String) (ed : Option Nat)
    (nid : String)
    (h : (add_task_node_to_graph s gid spec sid ed).1 = .ok nid) :
    (nodeIn (add_task_node_to_graph s gid spec sid ed).2 gid nid).isSome = true := by
  simp only [add_task_node_to_graph, genId] at h ⊢
  rcases hsv : save_task s.db
      (newTaskNode ("uuid-" ++ toString s.fresh) spec sid ed s.clock) with _ | db2
  · rw [hsv] at h
    dsimp only at h
    exact absurd h (by simp)
  · rw [hsv] at h
    dsimp only at h ⊢
    by_cases hc : acontains s.graphs gid = true
    · rw [hc] at h ⊢
      rw [if_pos rfl] at h ⊢
      dsimp only at h ⊢
      obtain rfl : ("uuid-" ++ toString s.fresh) = nid := by injection h
      unfold acontains at hc
      obtain ⟨g, hg⟩ := Option.isSome_iff_exists.mp hc
      unfold nodeIn
      rw [alookup_aupdate_self, hg]
      simp only [Option.map_some', Option.some_bind, newTaskNode_id]
      rw [alookup_aupsert_self]
      rfl
    · rw [if_neg hc] at h
      dsimp only at h
      exact absurd h (by simp)

theorem add_edge_nodes_const (s : OrchState) (gid frId toId : String)
    (cond : Option String) (dm : Option (List (String × String))) (x : String) :
    nodeIn (add_task_edge_to_graph s gid frId toId cond dm).2 gid x =
      nodeIn s gid x := by
  unfold add_task_edge_to_graph
  cases hg : alookup s.graphs gid with
  | none => rfl
  | some g =>
      dsimp only [genId]
      repeat' split
      all_goals simp [nodeIn, alookup_aupdate_self, hg]

theorem addSubEdgesGo_nodes_const (gid : String) (tm : List (String × String))
    (edges : List SubTaskEdgeDefinition) :
    ∀ (s : OrchState) (ae : List String) (x : String),
      nodeIn (addSubEdgesGo gid tm s edges ae).1 gid x = nodeIn s gid x := by
  induction edges with
  | nil => intro s ae x; rfl
  | cons e rest ih =>
      intro s ae x
      unfold addSubEdgesGo
      cases alookup tm e.from_subtask_temp_id with
      | none => rfl
      | some fid =>
          dsimp only
          cases alookup tm e.to_subtask_temp_id with
          | none => rfl
          | some tid =>
              dsimp only
              rcases hadd : add_task_edge_to_graph s gid fid tid none none with ⟨r, s2⟩
              have hfr : nodeIn s2 gid x = nodeIn s gid x := by
                have := add_edge_nodes_const s gid fid tid none none x
                rw [hadd] at this
                exact this
              cases r with
              | ok eid =>
                  dsimp only
                  rw [ih s2 (ae ++ [eid]) x]
                  exact hfr
              | error err =>
                  dsimp only
                  exact hfr

theorem foldl_remove_node_none_pres (gid : String) :
    ∀ (L : List String) (s : OrchState) (x : String),
      nodeIn s gid x = none →
      nodeIn (L.foldl (fun s nid => remove_task_node s gid nid) s) gid x = none := by
  intro L
  induction L with
  | nil => intro s x h; exact h
  | cons hd tl ih =>
      intro s x h
      rw [List.foldl_cons]
      apply ih
      by_cases hx : x = hd
      · subst hx
        exact nodeIn_remove_self s gid x
      · rw [nodeIn_remove_ne s gid hd x hx]
        exact h

theorem foldl_remove_node_none (gid : String) :
    ∀ (L : List String) (s : OrchState) (x : String), x ∈ L →
      nodeIn (L.foldl (fun s nid => remove_task_node s gid nid) s) gid x = none := by
  intro L
  induction L with
  | nil => intro s x h; exact absurd h (List.not_mem_nil x)
  | cons hd tl ih =>
      intro s x h
      rw [List.foldl_cons]
      rcases List.mem_cons.mp h with h1 | h2
      · subst h1
        exact foldl_remove_node_none_pres gid tl _ x (nodeIn_remove_self s gid x)
      · exact ih _ x h2

theorem foldl_remove_node_frame (gid : String) :
    ∀ (L : List String) (s : OrchState) (x : String), x ∉ L →
      nodeIn (L.foldl (fun s nid => remove_task_node s gid nid) s) gid x =
        nodeIn s gid x := by
  intro L
  induction L with
  | nil => intro s x _; rfl
  | cons hd tl ih =>
      intro s x h
      rw [List.foldl_cons]
      have hne : x ≠ hd := fun e => h (e ▸ List.mem_cons_self hd tl)
      have htl : x ∉ tl := fun e => h (List.mem_cons_of_mem hd e)
      rw [ih _ x htl, nodeIn_remove_ne s gid hd x hne]

theorem foldl_remove_node_edges (gid : String) :
    ∀ (L : List String) (s : OrchState) (e : String),
      edgeIn (L.foldl (fun s nid => remove_task_node s gid nid) s) gid e =
        edgeIn s gid e := by
  intro L
  induction L with
  | nil => intro s e; rfl
  | cons hd tl ih =>
      intro s e
      rw [List.foldl_cons, ih _ e, edgeIn_remove_node s gid hd e]

theorem foldl_remove_edge_false_pres (gid : String) :
    ∀ (L : List String) (s : OrchState) (e : String),
      edgeIn s gid e = false →
      edgeIn (L.foldl (fun s eid => remove_task_edge s gid eid) s) gid e = false := by
  intro L
  induction L with
  | nil => intro s e h; exact h
  | cons hd tl ih =>
      intro s e h
      rw [List.foldl_cons]
      apply ih
      by_cases hx : e = hd
      · subst hx
        exact edgeIn_remove_edge_self s gid e
      · rw [edgeIn_remove_edge_ne s gid hd e hx]
        exact h

theorem foldl_remove_edge_false (gid : String) :
    ∀ (L : List String) (s : OrchState) (e : String), e ∈ L →
      edgeIn (L.foldl (fun s eid => remove_task_edge s gid eid) s) gid e = false := by
  intro L
  induction L with
  | nil => intro s e h; exact absurd h (List.not_mem_nil e)
  | cons hd tl ih =>
      intro s e h
      rw [List.foldl_cons]
      rcases List.mem_cons.mp h with h1 | h2
      · subst h1
        exact foldl_remove_edge_false_pres gid tl _ e (edgeIn_remove_edge_self s gid e)
      · exact ih _ e h2

theorem foldl_remove_edge_nodes (gid : String) :
    ∀ (L : List String) (s : OrchState) (x : String),
      nodeIn (L.foldl (fun s eid => remove_task_edge s gid eid) s) gid x =
        nodeIn s gid x := by
  intro L
  induction L with
  | nil => intro s x; rfl
  | cons hd tl ih =>
      intro s x
      rw [List.foldl_cons, ih _ x, nodeIn_remove_edge s gid hd x]

theorem addSubtasksGo_preserves (gid : String) (subs : List SubTaskDefinition) :
    ∀ (s : OrchState) (tm : List (String × String)) (an : List String)
      (x : String),
      x ∉ (addSubtasksGo gid s subs tm an).2.2.1 →
      (nodeIn s gid x).isSome = true →
      (nodeIn (addSubtasksGo gid s subs tm an).1 gid x).isSome = true := by
  induction subs with
  | nil => intro s tm an x _ h; exact h
  | cons d rest ih =>
      intro s tm an x hx h
      unfold addSubtasksGo at hx ⊢
      rcases hadd : add_task_node_to_graph s gid (subSpecOf d) none none with ⟨r, s2⟩
      have hmono : (nodeIn s2 gid x).isSome = true := by
        have := add_node_nodes_mono s gid (subSpecOf d) none none x h
        rw [hadd] at this
        exact this
      cases r with
      | ok nid =>
          rw [hadd] at hx
          dsimp only at hx ⊢
          exact ih s2 _ _ x hx hmono
      | error err =>
          rw [hadd] at hx
          dsimp only at hx ⊢
          rw [foldl_remove_node_frame gid an s2 x hx]
          exact hmono

theorem addSubtasksGo_success_mono (gid : String) (subs : List SubTaskDefinition) :
    ∀ (s : OrchState) (tm : List (String × String)) (an : List String)
      (x : String),
      (addSubtasksGo gid s subs tm an).2.2.2 = false →
      (nodeIn s gid x).isSome = true →
      (nodeIn (addSubtasksGo gid s subs tm an).1 gid x).isSome = true := by
  induction subs with
  | nil => intro s tm an x _ h; exact h
  | cons d rest ih =>
      intro s tm an x hf h
      unfold addSubtasksGo at hf ⊢
      rcases hadd : add_task_node_to_graph s gid (subSpecOf d) none none with ⟨r, s2⟩
      cases r with
      | ok nid =>
          rw [hadd] at hf
          dsimp only at hf ⊢
          have hmono : (nodeIn s2 gid x).isSome = true := by
            have := add_node_nodes_mono s gid (subSpecOf d) none none x h
            rw [hadd] at this
            exact this
          exact ih s2 _ _ x hf hmono
      | error err =>
          rw [hadd] at hf
          dsimp only at hf
          exact absurd hf (by simp)

theorem addSubtasksGo_added_present (gid : String) (subs : List SubTaskDefinition) :
    ∀ (s : OrchState) (tm : List (String × String)) (an : List String),
      (addSubtasksGo gid s subs tm an).2.2.2 = false →
      (∀ y ∈ an, (nodeIn s gid y).isSome = true) →
      ∀ y ∈ (addSubtasksGo gid s subs tm an).2.2.1,
        (nodeIn (addSubtasksGo gid s subs tm an).1 gid y).isSome = true := by
  induction subs with
  | nil => intro s tm an _ hinv y hy; exact hinv y hy
  | cons d rest ih =>
      intro s tm an hf hinv y hy
      unfold addSubtasksGo at hf hy ⊢
      rcases hadd : add_task_node_to_graph s gid (subSpecOf d) none none with ⟨r, s2⟩
      cases r with
      | ok nid =>
          rw [hadd] at hf hy
          dsimp only at hf hy ⊢
          have hok1 : (add_task_node_to_graph s gid (subSpecOf d) none none).1 =
              .ok nid := by rw [hadd]
          refine ih s2 _ _ hf ?_ y hy
          intro z hz
          rcases List.mem_append.mp hz with hz1 | hz2
          · have := add_node_nodes_mono s gid (subSpecOf d) none none z (hinv z hz1)
            rw [hadd] at this
            exact this
          · obtain rfl : z = nid := by simpa using hz2
            have := add_node_ok_present s gid (subSpecOf d) none none z hok1
            rw [hadd] at this
            exact this
      | error err =>
          rw [hadd] at hf
          dsimp only at hf
          exact absurd hf (by simp)

theorem addSubtasksGo_added_removed (gid : String) (subs : List SubTaskDefinition) :
    ∀ (s : OrchState) (tm : List (String × String)) (an : List String),
      (addSubtasksGo gid s subs tm an).2.2.2 = true →
      ∀ y ∈ (addSubtasksGo gid s subs tm an).2.2.1,
        nodeIn (addSubtasksGo gid s subs tm an).1 gid y = none := by
  induction subs with
  | nil =>
      intro s tm an hf
      dsimp only [addSubtasksGo] at hf
      exact absurd hf (by simp)
  | cons d rest ih =>
      intro s tm an hf y hy
      unfold addSubtasksGo at hf hy ⊢
      rcases hadd : add_task_node_to_graph s gid (subSpecOf d) none none with ⟨r, s2⟩
      cases r with
      | ok nid =>
          rw [hadd] at hf hy
          dsimp only at hf hy ⊢
          exact ih s2 _ _ hf y hy
      | error err =>
          rw [hadd] at hf hy
          dsimp only at hf hy ⊢
          exact foldl_remove_node_none gid an s2 y hy

theorem nodeIn_finalize_ne (s : OrchState) (gid orig x : String) (b : Bool)
    (now : Nat) (hx : x ≠ orig) :
    nodeIn (finalizeOriginal s gid orig b now) gid x = nodeIn s gid x := by
  unfold finalizeOriginal nodeIn
  dsimp only
  rw [alookup_aupdate_self]
  cases alookup s.graphs gid with
  | none => rfl
  | some g =>
      simp only [Option.map_some', Option.some_bind]
      exact alookup_aupdate_ne _ _ _ _ hx

theorem nodeIn_finalize_self (s : OrchState) (gid orig : String) (b : Bool)
    (now : Nat) :
    nodeIn (finalizeOriginal s gid orig b now) gid orig =
      (nodeIn s gid orig).map (fun n =>
        if b then
          { n with status := .failed, updated_at := now,
                   error_message := some "Subtask decomposition failed" }
        else
          { n with status := .completed, updated_at := now,
                   error_message := none }) := by
  unfold finalizeOriginal nodeIn
  dsimp only
  rw [alookup_aupdate_self]
  cases alookup s.graphs gid with
  | none => rfl
  | some g =>
      simp only [Option.map_some', Option.some_bind]
      exact alookup_aupdate_self _ _ _

theorem edgeIn_finalize (s : OrchState) (gid orig : String) (b : Bool)
    (now : Nat) (e : String) :
    edgeIn (finalizeOriginal s gid orig b now) gid e = edgeIn s gid e := by
  unfold finalizeOriginal edgeIn
  dsimp only
  rw [alookup_aupdate_self]
  cases alookup s.graphs gid with
  | none => rfl
  | some g => rfl

theorem foldl_if_ne_nil {β : Type} (L : List String) (f : β → String → β)
    (x : β) :
    (if L ≠ [] then L.foldl f x else x) = L.foldl f x := by
  cases L with
  | nil => simp
  | cons hd tl => rw [if_pos (by simp)]

/-- C8 amended: processing a `SubTasksGenerated` result, with the internal
phase outcomes exposed (`addSubtasksGo` is the node-adding loop starting from
the empty temp-map and empty added-list, `addSubEdgesGo` the edge-adding loop;
the decomposing original's id is never one of the freshly added sub-node
ids).  (1) If the node phase fails, its inline cleanup has removed every
added sub-node and the original is marked Failed with "Subtask decomposition
failed".  (2) If the node phase succeeds and the edge phase fails after at
least one edge was added, every added sub-node and sub-edge is removed again
and the original is marked Failed with that error.  (3) But if the edge
phase fails with **no** edge added, the batch cleanup is skipped
(`task_result_processor.rs` line 306): every added sub-node **remains in the
graph**, though the original is still marked Failed.  (4) When every step
succeeds the original node is marked Completed with its error cleared. -/
theorem c8_amended_rollback (s : OrchState) (gid orig : String) (g : TaskGraph)
    (subs : List SubTaskDefinition) (edges : List SubTaskEdgeDefinition)
    (now : Nat)
    (hg : alookup s.graphs gid = some g)
    (hc : acontains g.nodes orig = true) :
    (∀ s1 tm an, addSubtasksGo gid s subs [] [] = (s1, tm, an, true) →
      orig ∉ an →
      (handle_subtasks_generated s orig subs edges now gid).1 = .error () ∧
      (∀ nid ∈ an,
        nodeIn (handle_subtasks_generated s orig subs edges now gid).2 gid nid =
          none) ∧
      (nodeIn (handle_subtasks_generated s orig subs edges now gid).2 gid orig).map
        (fun n => (n.status, n.error_message)) =
        some (TaskStatus.failed, some "Subtask decomposition failed")) ∧
    (∀ s1 tm an s2 ae, addSubtasksGo gid s subs [] [] = (s1, tm, an, false) →
      addSubEdgesGo gid tm s1 edges [] = (s2, ae, true) → ae ≠ [] →
      orig ∉ an →
      (handle_subtasks_generated s orig subs edges now gid).1 = .error () ∧
      (∀ nid ∈ an,
        nodeIn (handle_subtasks_generated s orig subs edges now gid).2 gid nid =
          none) ∧
      (∀ eid ∈ ae,
        edgeIn (handle_subtasks_generated s orig subs edges now gid).2 gid eid =
          false) ∧
      (nodeIn (handle_subtasks_generated s orig subs edges now gid).2 gid orig).map
        (fun n => (n.status, n.error_message)) =
        some (TaskStatus.failed, some "Subtask decomposition failed")) ∧
    (∀ s1 tm an s2, addSubtasksGo gid s subs [] [] = (s1, tm, an, false) →
      addSubEdgesGo gid tm s1 edges [] = (s2, [], true) →
      orig ∉ an →
      (handle_subtasks_generated s orig subs edges now gid).1 = .error () ∧
      (∀ nid ∈ an,
        (nodeIn (handle_subtasks_generated s orig subs edges now gid).2 gid
          nid).isSome = true) ∧
      (nodeIn (handle_subtasks_generated s orig subs edges now gid).2 gid orig).map
        (fun n => (n.status, n.error_message)) =
        some (TaskStatus.failed, some "Subtask decomposition failed")) ∧
    (∀ s1 tm an s2 ae, addSubtasksGo gid s subs [] [] = (s1, tm, an, false) →
      addSubEdgesGo gid tm s1 edges [] = (s2, ae, false) →
      (handle_subtasks_generated s orig subs edges now gid).1 = .ok () ∧
      (nodeIn (handle_subtasks_generated s orig subs edges now gid).2 gid orig).map
        (fun n => (n.status, n.error_message)) =
        some (TaskStatus.completed, none)) := by
  have horigSome : (nodeIn s gid orig).isSome = true := by
    unfold nodeIn
    rw [hg]
    exact hc
  refine ⟨?_, ?_, ?_, ?_⟩
  · -- (1) node phase fails: inline rollback, original Failed
    intro s1 tm an hn horig
    have main : handle_subtasks_generated s orig subs edges now gid =
        (.error (), finalizeOriginal s1 gid orig true now) := by
      unfold handle_subtasks_generated
      simp [hg, hc, hn]
    rw [main]
    dsimp only
    have hrem := addSubtasksGo_added_removed gid subs s [] [] (by rw [hn])
    rw [hn] at hrem
    refine ⟨rfl, ?_, ?_⟩
    · intro nid hnid
      have hne : nid ≠ orig := fun e => horig (e ▸ hnid)
      rw [nodeIn_finalize_ne _ _ _ _ _ _ hne]
      exact hrem nid hnid
    · rw [nodeIn_finalize_self]
      have hpres : (nodeIn s1 gid orig).isSome = true := by
        have := addSubtasksGo_preserves gid subs s [] [] orig
          (by rw [hn]; exact horig) horigSome
        rw [hn] at this
        exact this
      obtain ⟨n1, hn1⟩ := Option.isSome_iff_exists.mp hpres
      rw [hn1]
      rfl
  · -- (2) edge phase fails after an edge was added: full rollback
    intro s1 tm an s2 ae hn he hae horig
    have main : handle_subtasks_generated s orig subs edges now gid =
        (.error (), finalizeOriginal
          (an.foldl (fun s nid => remove_task_node s gid nid)
            (ae.foldl (fun s eid => remove_task_edge s gid eid) s2))
          gid orig true now) := by
      unfold handle_subtasks_generated
      simp [hg, hc, hn, he, hae, foldl_if_ne_nil]
      cases an with
      | nil => simp
      | cons a an2 => simp
    rw [main]
    dsimp only
    refine ⟨rfl, ?_, ?_, ?_⟩
    · intro nid hnid
      have hne : nid ≠ orig := fun e => horig (e ▸ hnid)
      rw [nodeIn_finalize_ne _ _ _ _ _ _ hne]
      exact foldl_remove_node_none gid an _ nid hnid
    · intro eid heid
      rw [edgeIn_finalize, foldl_remove_node_edges]
      exact foldl_remove_edge_false gid ae s2 eid heid
    · rw [nodeIn_finalize_self]
      have hpres1 : (nodeIn s1 gid orig).isSome = true := by
        have := addSubtasksGo_success_mono gid subs s [] [] orig (by rw [hn]) horigSome
        rw [hn] at this
        exact this
      have hpres2 : (nodeIn s2 gid orig).isSome = true := by
        have := addSubEdgesGo_nodes_const gid tm edges s1 [] orig
        rw [he] at this
        dsimp only at this
        rw [this]
        exact hpres1
      have hpres3 :
          (nodeIn (an.foldl (fun s nid => remove_task_node s gid nid)
            (ae.foldl (fun s eid => remove_task_edge s gid eid) s2)) gid
            orig).isSome = true := by
        rw [foldl_remove_node_frame gid an _ orig horig, foldl_remove_edge_nodes]
        exact hpres2
      obtain ⟨n1, hn1⟩ := Option.isSome_iff_exists.mp hpres3
      rw [hn1]
      rfl
  · -- (3) edge phase fails with no edge added: cleanup skipped, nodes remain
    intro s1 tm an s2 hn he horig
    have main : handle_subtasks_generated s orig subs edges now gid =
        (.error (), finalizeOriginal s2 gid orig true now) := by
      unfold handle_subtasks_generated
      simp [hg, hc, hn, he]
    rw [main]
    dsimp only
    have hpresAll : ∀ y ∈ an, (nodeIn s1 gid y).isSome = true := by
      have := addSubtasksGo_added_present gid subs s [] [] (by rw [hn])
        (by intro y hy; exact absurd hy (List.not_mem_nil y))
      rw [hn] at this
      exact this
    refine ⟨rfl, ?_, ?_⟩
    · intro nid hnid
      have hne : nid ≠ orig := fun e => horig (e ▸ hnid)
      rw [nodeIn_finalize_ne _ _ _ _ _ _ hne]
      have := addSubEdgesGo_nodes_const gid tm edges s1 [] nid
      rw [he] at this
      dsimp only at this
      rw [this]
      exact hpresAll nid hnid
    · rw [nodeIn_finalize_self]
      have hpres1 : (nodeIn s1 gid orig).isSome = true := by
        have := addSubtasksGo_success_mono gid subs s [] [] orig (by rw [hn]) horigSome
        rw [hn] at this
        exact this
      have hpres2 : (nodeIn s2 gid orig).isSome = true := by
        have := addSubEdgesGo_nodes_const gid tm edges s1 [] orig
        rw [he] at this
        dsimp only at this
        rw [this]
        exact hpres1
      obtain ⟨n1, hn1⟩ := Option.isSome_iff_exists.mp hpres2
      rw [hn1]
      rfl
  · -- (4) every step succeeds: original Completed
    intro s1 tm an s2 ae hn he
    have main : handle_subtasks_generated s orig subs edges now gid =
        (.ok (), finalizeOriginal s2 gid orig false now) := by
      unfold handle_subtasks_generated
      simp [hg, hc, hn, he]
    rw [main]
    dsimp only
    refine ⟨rfl, ?_⟩
    rw [nodeIn_finalize_self]
    have hpres1 : (nodeIn s1 gid orig).isSome = true := by
      have := addSubtasksGo_success_mono gid subs s [] [] orig (by rw [hn]) horigSome
      rw [hn] at this
      exact this
    have hpres2 : (nodeIn s2 gid orig).isSome = true := by
      have := addSubEdgesGo_nodes_const gid tm edges s1 [] orig
      rw [he] at this
      dsimp only at this
      rw [this]
      exact hpres1
    obtain ⟨n1, hn1⟩ := Option.isSome_iff_exists.mp hpres2
    rw [hn1]
    rfl

/-! ## Claim C9 -/

theorem taskRowOf_id (n : TaskNode) : (taskRowOf n).id = n.id := rfl

theorem taskRowOf_name (n : TaskNode) : (taskRowOf n).name = n.name := rfl

theorem taskRowOf_description (n : TaskNode) : (taskRowOf n).description = n.description := rfl

theorem taskRowOf_task_spec (n : TaskNode) : (taskRowOf n).task_spec = n.task_spec := rfl

theorem taskRowOf_status (n : TaskNode) : (taskRowOf n).status = taskStatusToString n.status := rfl

theorem taskRowOf_agent_role_type (n : TaskNode) : (taskRowOf n).agent_role_type = n.agent_role_type.map agentRoleToString := rfl

theorem taskRowOf_mcp_id (n : TaskNode) : (taskRowOf n).mcp_id = n.mcp_id := rfl

theorem taskRowOf_inputs (n : TaskNode) : (taskRowOf n).inputs = n.inputs := rfl

theorem taskRowOf_outputs (n : TaskNode) : (taskRowOf n).outputs = n.outputs := rfl

theorem taskRowOf_retry_count (n : TaskNode) : (taskRowOf n).retry_count = (n.retry_count : Int) := rfl

theorem taskRowOf_retry_policy (n : TaskNode) : (taskRowOf n).retry_policy = n.retry_policy := rfl

theorem taskRowOf_priority (n : TaskNode) : (taskRowOf n).priority = (n.priority : Int) := rfl

theorem taskRowOf_estimated_duration_ms (n : TaskNode) : (taskRowOf n).estimated_duration_ms = n.estimated_duration_ms.map wrapI64 := rfl

theorem taskRowOf_actual_duration_ms (n : TaskNode) : (taskRowOf n).actual_duration_ms = n.actual_duration_ms.map wrapI64 := rfl

theorem taskRowOf_created_at (n : TaskNode) : (taskRowOf n).created_at = n.created_at := rfl

theorem taskRowOf_updated_at (n : TaskNode) : (taskRowOf n).updated_at = n.updated_at := rfl

theorem taskRowOf_assigned_agent_id (n : TaskNode) : (taskRowOf n).assigned_agent_id = n.assigned_agent_id := rfl

theorem taskRowOf_error_message (n : TaskNode) : (taskRowOf n).error_message = n.error_message := rfl

theorem taskRowOf_sprint_id (n : TaskNode) : (taskRowOf n).sprint_id = n.sprint_id := rfl

theorem taskStatus_roundtrip (st : TaskStatus) :
    taskStatusFromStr (taskStatusToString st) = some st := by
  cases st <;> rfl

theorem agentRole_roundtrip (r : AgentRole) :
    agentRoleFromStr (agentRoleToString r) = some r := by
  cases r <;> rfl

theorem getI32_ofNat (x : Nat) (hx : x < 2 ^ 31) :
    getI32 (x : Int) = .ok (x : Int) := by
  unfold getI32
  rw [if_pos]
  exact ⟨by omega, by omega⟩

theorem castU32_ofNat (x : Nat) (hx : x < 2 ^ 32) : castU32 (x : Int) = x := by
  unfold castU32
  omega

theorem castU8_ofNat (x : Nat) (hx : x < 2 ^ 8) : castU8 (x : Int) = x := by
  unfold castU8
  omega

theorem castU64_wrapI64 (x : Nat) (hx : x < 2 ^ 64) : castU64 (wrapI64 x) = x := by
  unfold castU64 wrapI64
  split <;> omega

theorem ebind_ok {α β : Type} (a : α) (f : α → Except Unit β) :
    Except.bind (Except.ok a) f = f a := rfl

theorem parseStatusCol_roundtrip (st : TaskStatus) :
    parseStatusCol (taskStatusToString st) = .ok st := by
  cases st <;> rfl

theorem parseRoleCol_roundtrip (r : Option AgentRole) :
    parseRoleCol (r.map agentRoleToString) = .ok r := by
  cases r with
  | none => rfl
  | some role => cases role <;> rfl

theorem nodeOfRow_taskRowOf (n : TaskNode)
    (hrc : n.retry_count < 2 ^ 32) (hpr : n.priority < 2 ^ 8)
    (hest : ∀ x, n.estimated_duration_ms = some x → x < 2 ^ 64)
    (hact : ∀ x, n.actual_duration_ms = some x → x < 2 ^ 64) :
    nodeOfRow (taskRowOf n) n.status n.agent_role_type
      ((n.retry_count : Int)) ((n.priority : Int)) = n := by
  have hestm : ((taskRowOf n).estimated_duration_ms).map castU64 =
      n.estimated_duration_ms := by
    show (n.estimated_duration_ms.map wrapI64).map castU64 =
      n.estimated_duration_ms
    cases he : n.estimated_duration_ms with
    | none => rfl
    | some x => simp only [Option.map_some', castU64_wrapI64 x (hest x he)]
  have hactm : ((taskRowOf n).actual_duration_ms).map castU64 =
      n.actual_duration_ms := by
    show (n.actual_duration_ms.map wrapI64).map castU64 =
      n.actual_duration_ms
    cases ha : n.actual_duration_ms with
    | none => rfl
    | some x => simp only [Option.map_some', castU64_wrapI64 x (hact x ha)]
  unfold nodeOfRow
  rw [castU32_ofNat n.retry_count hrc, castU8_ofNat n.priority hpr, hestm, hactm]
  rfl

/-- C9 counterexample: a node whose `retry_count` is `2^31` (allowed by the
`u32` field) is saved exactly, but `load_task` reads the column back through
rusqlite's checked `i32` getter, which rejects the value, so the load
returns an error rather than the node: save-then-load is not the identity
for every node. -/
theorem c9_roundtrip_fails_large_retry_count :
    c9Node.retry_count = 2 ^ 31 ∧
    saveLoad dbD c9Node = .error () :=
  ⟨rfl, rfl⟩

/-- C9 amended: saving a node and loading it back by id is the identity for
every node whose `retry_count` fits in an `i32` (any node satisfying
invariant I3 does, since `max_retries` is a `u8`); the bounds on `priority`
and the durations restate their Rust column types (`u8`, `u64`). -/
theorem c9_amended_roundtrip (db : DbState) (n : TaskNode)
    (hdb : db.writeOk = true)
    (hrc : n.retry_count < 2 ^ 31)
    (hpr : n.priority < 2 ^ 8)
    (hest : ∀ x, n.estimated_duration_ms = some x → x < 2 ^ 64)
    (hact : ∀ x, n.actual_duration_ms = some x → x < 2 ^ 64) :
    saveLoad db n = .ok (some n) := by
  have h3 : getI32 (taskRowOf n).retry_count = .ok ((n.retry_count : Int)) :=
    getI32_ofNat n.retry_count hrc
  have h4 : getI32 (taskRowOf n).priority = .ok ((n.priority : Int)) :=
    getI32_ofNat n.priority (by omega)
  have hst : parseStatusCol (taskRowOf n).status = .ok n.status :=
    parseStatusCol_roundtrip n.status
  have hrole : parseRoleCol (taskRowOf n).agent_role_type =
      .ok n.agent_role_type :=
    parseRoleCol_roundtrip n.agent_role_type
  have hnode : nodeOfRow (taskRowOf n) n.status n.agent_role_type
      ((n.retry_count : Int)) ((n.priority : Int)) = n :=
    nodeOfRow_taskRowOf n (by omega) hpr hest hact
  unfold saveLoad save_task
  rw [hdb]
  simp only [if_pos rfl]
  show load_task _ n.id = .ok (some n)
  unfold load_task
  rw [alookup_aupsert_self]
  dsimp only
  simp only [h3, h4, hst, hrole, ebind_ok]
  rw [hnode]

/-- C9 witness: the amended round-trip applied to a node with every optional
field populated and in-range numeric fields. -/
theorem c9_witness :
    dbD.writeOk = true ∧
    c9GoodNode.retry_count < 2 ^ 31 ∧
    c9GoodNode.priority < 2 ^ 8 ∧
    (∀ x, c9GoodNode.estimated_duration_ms = some x → x < 2 ^ 64) ∧
    (∀ x, c9GoodNode.actual_duration_ms = some x → x < 2 ^ 64) ∧
    saveLoad dbD c9GoodNode = .ok (some c9GoodNode) :=
  ⟨rfl, by decide, by decide, by decide, by decide,
    c9_amended_roundtrip dbD c9GoodNode rfl (by decide) (by decide)
      (by decide) (by decide)⟩

/-- C8 witness: the amended theorem applied to a concrete batch of two
sub-tasks (`tA`, `tB`, added as `uuid-0`, `uuid-1`) and two declared edges of
which the first is added (`uuid-2`) and the second fails on a dangling temp
id: the handler errors, both sub-nodes and the added edge are removed, and
the original `o` is marked Failed. -/
theorem c8_witness :
    alookup c8State.graphs "g0" = some (mkGraph [("o", mkNode "o" .executing)]) ∧
    acontains (mkGraph [("o", mkNode "o" .executing)]).nodes "o" = true ∧
    addSubtasksGo "g0" c8State [c8Sub, c8Sub2] [] [] =
      ((addSubtasksGo "g0" c8State [c8Sub, c8Sub2] [] []).1,
        (addSubtasksGo "g0" c8State [c8Sub, c8Sub2] [] []).2.1,
        ["uuid-0", "uuid-1"], false) ∧
    addSubEdgesGo "g0" (addSubtasksGo "g0" c8State [c8Sub, c8Sub2] [] []).2.1
        (addSubtasksGo "g0" c8State [c8Sub, c8Sub2] [] []).1
        [c8GoodEdge, c8BadEdge] [] =
      ((addSubEdgesGo "g0"
          (addSubtasksGo "g0" c8State [c8Sub, c8Sub2] [] []).2.1
          (addSubtasksGo "g0" c8State [c8Sub, c8Sub2] [] []).1
          [c8GoodEdge, c8BadEdge] []).1, ["uuid-2"], true) ∧
    ("o" : String) ∉ (["uuid-0", "uuid-1"] : List String) ∧
    (handle_subtasks_generated c8State "o" [c8Sub, c8Sub2]
      [c8GoodEdge, c8BadEdge] 9 "g0").1 = .error () ∧
    nodeIn (handle_subtasks_generated c8State "o" [c8Sub, c8Sub2]
      [c8GoodEdge, c8BadEdge] 9 "g0").2 "g0" "uuid-0" = none ∧
    nodeIn (handle_subtasks_generated c8State "o" [c8Sub, c8Sub2]
      [c8GoodEdge, c8BadEdge] 9 "g0").2 "g0" "uuid-1" = none ∧
    edgeIn (handle_subtasks_generated c8State "o" [c8Sub, c8Sub2]
      [c8GoodEdge, c8BadEdge] 9 "g0").2 "g0" "uuid-2" = false ∧
    (nodeIn (handle_subtasks_generated c8State "o" [c8Sub, c8Sub2]
      [c8GoodEdge, c8BadEdge] 9 "g0").2 "g0" "o").map
      (fun n => (n.status, n.error_message)) =
      some (TaskStatus.failed, some "Subtask decomposition failed") := by
  have big := (c8_amended_rollback c8State "g0" "o"
      (mkGraph [("o", mkNode "o" .executing)])
      [c8Sub, c8Sub2] [c8GoodEdge, c8BadEdge] 9 rfl rfl).2.1
      (addSubtasksGo "g0" c8State [c8Sub, c8Sub2] [] []).1
      (addSubtasksGo "g0" c8State [c8Sub, c8Sub2] [] []).2.1
      ["uuid-0", "uuid-1"]
      (addSubEdgesGo "g0" (addSubtasksGo "g0" c8State [c8Sub, c8Sub2] [] []).2.1
        (addSubtasksGo "g0" c8State [c8Sub, c8Sub2] [] []).1
        [c8GoodEdge, c8BadEdge] []).1
      ["uuid-2"] rfl rfl (by decide) (by decide)
  exact ⟨rfl, rfl, rfl, rfl, by decide, big.1,
    big.2.1 "uuid-0" (by decide), big.2.1 "uuid-1" (by decide),
    big.2.2.1 "uuid-2" (by decide), big.2.2.2⟩

/-- C10 counterexample: on a `TaskAssignment` addressed to a different worker,
both loops run `process_task` without consulting `receiver_id` — but the
coder's loop never sets its status, so a coder that was Idle stays Idle
rather than becoming Busy as the claim asserts of every worker; only the
writer's loop sets Busy. -/
theorem c10_coder_processes_but_never_busy :
    c10Msg.receiver_id = some "other-agent" ∧
    coder_dispatch .idle c10Msg = (.idle, some c10Task) ∧
    writer_dispatch .idle c10Msg = (.busy, some c10Task) :=
  ⟨rfl, rfl, rfl⟩

/-- C10 amended: for every delivered message carrying a `TaskAssignment` —
whatever its `receiver_id`, in particular one naming another worker — the
writer's loop sets Busy and hands the task to `process_task`, and the coder's
loop hands the task to `process_task` while keeping its current status. -/
theorem c10_amended_no_receiver_check (st : AgentStatus) (m : Message)
    (t : TaskNode) (h : m.content = .taskAssignment t) :
    writer_dispatch st m = (.busy, some t) ∧
    coder_dispatch st m = (st, some t) := by
  unfold writer_dispatch coder_dispatch
  rw [h]
  exact ⟨rfl, rfl⟩

/-- C10 witness: the amended theorem applied to the mis-addressed fixture
message, starting from an Idle worker. -/
theorem c10_witness :
    c10Msg.content = .taskAssignment c10Task ∧
    writer_dispatch .idle c10Msg = (.busy, some c10Task) ∧
    coder_dispatch .idle c10Msg = (.idle, some c10Task) :=
  ⟨rfl, (c10_amended_no_receiver_check .idle c10Msg c10Task rfl).1,
    (c10_amended_no_receiver_check .idle c10Msg c10Task rfl).2⟩

end HIVE
